import Mathlib

/-!
Verification development for the `use-stick-to-bottom` scroll-tracking core.

The definitions below are a shallow embedding of `src/useStickToBottom.ts`
(the current revision of the hook).  JavaScript numbers are modelled as
rationals, `undefined`-able fields as `Option`, and the mutable
`StickToBottomState` record as an explicit `State` value threaded through the
event handlers.  Asynchronous boundaries in the source (the 1ms deferred tick
inside `handleScroll`, and the `requestAnimationFrame` loop of
`scrollToBottom`) are modelled by splitting the corresponding function into
the synchronous pieces that run on either side of the boundary, so that other
notifications can be interleaved between them exactly as in the browser.
-/

namespace StickToBottom

/-- `MIN_SCROLL_AMOUNT_PX = 0.5` from the source. -/
def MIN_SCROLL_AMOUNT_PX : ℚ := 1/2

/-- `STICK_TO_BOTTOM_OFFSET_PX = 100` from the source. -/
def STICK_TO_BOTTOM_OFFSET_PX : ℚ := 100

/-- `SIXTY_FPS_INTERVAL_MS = 1000 / 60` from the source. -/
def SIXTY_FPS_INTERVAL_MS : ℚ := 1000/60

/-- A fully populated spring parameter set (`Required<SpringBehavior>`). -/
structure Spring where
  damping : ℚ
  stiffness : ℚ
  mass : ℚ
deriving DecidableEq

/-- `DEFAULT_SPRING_BEHAVIOR = { damping: 0.7, stiffness: 0.05, mass: 1.25 }`. -/
def DEFAULT_SPRING_BEHAVIOR : Spring :=
  { damping := 7/10, stiffness := 1/20, mass := 5/4 }

/-- The TypeScript `Behavior = ScrollBehavior | SpringBehavior` union:
a named preset string (`auto` / `instant` / `smooth`) or a partial spring
override object. -/
inductive Behavior where
  | auto
  | instant
  | smooth
  | springLike (damping stiffness mass : Option ℚ)
deriving DecidableEq

/-- The result type of `mergeBehaviors`: the `\x27instant\x27` sentinel or a fully
populated spring parameter set (`state.behavior`s runtime type). -/
inductive Merged where
  | instant
  | spring (s : Spring)
deriving DecidableEq

/-- A `Merged` value flowing back into `mergeBehaviors` (the source passes
`state.behavior`, and merged results, as further `Behavior` arguments). -/
def Merged.toBehavior : Merged → Behavior
  | .instant => .instant
  | .spring s => .springLike (some s.damping) (some s.stiffness) (some s.mass)

/-- One iteration of the `for (const behavior of behaviors)` loop in
`mergeBehaviors`.  The accumulator is the `result` record paired with the
`instant` flag.  `none` plays the role of an `undefined` argument. -/
def mergeStep : Spring × Bool → Option Behavior → Spring × Bool
  | (acc, _), some .instant => (acc, true)
  | (acc, _), some (.springLike d st m) =>
      ({ damping := d.getD acc.damping, stiffness := st.getD acc.stiffness,
         mass := m.getD acc.mass }, false)
  | (acc, _), _ => (acc, false)

/-- `mergeBehaviors(...behaviors)` from the source: fold the entries over the
defaults, tracking the `instant` flag; return the sentinel when the flag
survives to the end. -/
def mergeBehaviors (bs : List (Option Behavior)) : Merged :=
  let r := bs.foldl mergeStep (DEFAULT_SPRING_BEHAVIOR, false)
  if r.2 then .instant else .spring r.1

/-- The `StickToBottomOptions` record (spring overrides plus the
`resizeBehavior` / `initialBehavior` presets). -/
structure Options where
  damping : Option ℚ
  stiffness : Option ℚ
  mass : Option ℚ
  resizeBehavior : Option Behavior
  initialBehavior : Option Behavior
deriving DecidableEq

/-- An options record is itself an object with optional `damping` /
`stiffness` / `mass` fields when passed to `mergeBehaviors`. -/
def Options.asBehavior (o : Options) : Behavior :=
  .springLike o.damping o.stiffness o.mass

/-- Options with every field absent. -/
def Options.empty : Options := ⟨none, none, none, none, none⟩

/-- The scroll viewport element: `scrollTop`, `scrollHeight`, `clientHeight`. -/
structure Viewport where
  scrollTop : ℚ
  scrollHeight : ℚ
  clientHeight : ℚ
deriving DecidableEq

/-- The mutable `StickToBottomState` record.  `viewport` is `scrollRef.current`;
`animation` records whether the `state.animation` field currently holds a
scheduled frame handle; `listeners` holds identifiers of the pending
`scrollToBottom` promise resolvers. -/
structure State where
  viewport : Option Viewport
  lastScrollTop : Option ℚ
  ignoreScrollToTop : Option ℚ
  resizeDifference : ℚ
  animation : Bool
  lastTick : Option ℚ
  behavior : Option Merged
  velocity : ℚ
  accumulated : ℚ
  escapedFromLock : Bool
  isAtBottom : Bool
  listeners : List Nat
deriving DecidableEq

/-- The state built by the `useMemo` initializer (no viewport attached yet):
`escapedFromLock = false`, `isAtBottom = true`, everything else zeroed. -/
def initialState : State :=
  { viewport := none, lastScrollTop := none, ignoreScrollToTop := none,
    resizeDifference := 0, animation := false, lastTick := none,
    behavior := none, velocity := 0, accumulated := 0,
    escapedFromLock := false, isAtBottom := true, listeners := [] }

/-- The `scrollTop` getter: `scrollRef.current?.scrollTop ?? 0`. -/
def State.scrollTopVal (s : State) : ℚ :=
  (s.viewport.map Viewport.scrollTop).getD 0

/-- The `targetScrollTop` getter: `0` when no viewport is attached, else
`scrollHeight - MIN_SCROLL_AMOUNT_PX - clientHeight`. -/
def State.targetScrollTop (s : State) : ℚ :=
  match s.viewport with
  | none => 0
  | some v => v.scrollHeight - MIN_SCROLL_AMOUNT_PX - v.clientHeight

/-- The `scrollDifference` getter: `targetScrollTop - scrollTop`. -/
def State.scrollDifference (s : State) : ℚ :=
  s.targetScrollTop - s.scrollTopVal

/-- The `isNearBottom` getter: `scrollDifference <= STICK_TO_BOTTOM_OFFSET_PX`. -/
def State.isNearBottomB (s : State) : Bool :=
  decide (s.scrollDifference ≤ STICK_TO_BOTTOM_OFFSET_PX)

/-- The value actually stored by an assignment to a DOM element's `scrollTop`:
the browser clamps writes into `[0, scrollHeight - clientHeight]`. -/
def elementWrite (v : Viewport) (x : ℚ) : ℚ :=
  max 0 (min x (v.scrollHeight - v.clientHeight))

/-- The `scrollTop` setter: clamp the argument to `targetScrollTop`, write it
to the element when one is attached, and record the written (read-back) value
in `ignoreScrollToTop` so the next scroll notification can be recognized as
self-caused. -/
def setScrollTop (s : State) (x : ℚ) : State :=
  let x := if s.targetScrollTop < x then s.targetScrollTop else x
  match s.viewport with
  | none => s
  | some v =>
      let w := elementWrite v x
      { s with viewport := some { v with scrollTop := w },
               ignoreScrollToTop := some w }

/-- `updateIsAtBottom(isAtBottom?)`: with no argument, recompute
`escapedFromLock ? false : isNearBottom || isAtBottom`; then publish. -/
def updateIsAtBottom (s : State) (v : Option Bool) : State :=
  let b := match v with
    | some b => b
    | none => if s.escapedFromLock then false else (s.isNearBottomB || s.isAtBottom)
  { s with isAtBottom := b }

/-- `setEscapedFromLock(escapedFromLock)`. -/
def setEscapedFromLock (s : State) (e : Bool) : State :=
  { s with escapedFromLock := e }

/-- The values the `handleScroll` listener destructures synchronously at event
time and closes over for the deferred (1ms `setTimeout`) classification. -/
structure ScrollCapture where
  scrollTop : ℚ
  ignoreScrollToTop : Option ℚ
  targetScrollTop : ℚ
  lastScrollTop : ℚ
deriving DecidableEq

/-- The synchronous part of `handleScroll`: capture `scrollTop`,
`ignoreScrollToTop` and `targetScrollTop`, default `lastScrollTop` to the
current offset, store the new `lastScrollTop`, clear `ignoreScrollToTop`, and
(JavaScript truthiness: an `ignoreScrollToTop` of `0` does not count) promote a
larger ignored offset into the captured `lastScrollTop`. -/
def handleScrollEvent (s : State) : State × ScrollCapture :=
  let st := s.scrollTopVal
  let ig := s.ignoreScrollToTop
  let tg := s.targetScrollTop
  let last0 := s.lastScrollTop.getD st
  let last :=
    match ig with
    | some i => if i ≠ 0 ∧ st < i then i else last0
    | none => last0
  ({ s with lastScrollTop := some st, ignoreScrollToTop := none },
   { scrollTop := st, ignoreScrollToTop := ig, targetScrollTop := tg,
     lastScrollTop := last })

/-- The deferred (1ms later) part of `handleScroll`: overscroll correction
first, then resize-noise / self-echo suppression, then direction
classification feeding `setEscapedFromLock`, then the `isAtBottom` recompute.
`state.resizeDifference` is read live (a resize notification may have landed
between the two phases); the rest comes from the capture. -/
def handleScrollDeferred (c : ScrollCapture) (s : State) : State :=
  if c.targetScrollTop < c.scrollTop then
    setScrollTop s c.targetScrollTop
  else if s.resizeDifference ≠ 0 ∨ c.ignoreScrollToTop = some c.scrollTop then
    s
  else
    let s1 :=
      if s.escapedFromLock = false ∧ c.scrollTop < c.lastScrollTop then
        setEscapedFromLock s true
      else if s.escapedFromLock = true ∧ c.lastScrollTop < c.scrollTop then
        setEscapedFromLock s false
      else s
    updateIsAtBottom s1 none

/-- A scroll notification reporting offset `o`: the browser has already moved
the viewport there when the listener fires. -/
def deliverScroll (s : State) (o : ℚ) : State :=
  match s.viewport with
  | none => s
  | some v => { s with viewport := some { v with scrollTop := o } }

/-- One whole scroll notification, with the deferred classification running
before anything else is delivered: move the viewport, run the synchronous
capture, then the deferred part. -/
def processScroll (s : State) (o : ℚ) : State :=
  let s := deliverScroll s o
  let p := handleScrollEvent s
  handleScrollDeferred p.2 p.1

/-- `handleWheel({ deltaY })`: on a wheel-up (`deltaY < 0`), escape the lock
and force `isAtBottom` to `false`; otherwise do nothing at all. -/
def handleWheel (deltaY : ℚ) (s : State) : State :=
  if deltaY < 0 then updateIsAtBottom (setEscapedFromLock s true) (some false)
  else s

/-- `scrollComplete(beforeNewAnimation?)`: zero `accumulated`, clear the
`animation` handle field and `behavior`, resolve and clear all listeners.
The returned list is the set of resolvers invoked.  (When
`beforeNewAnimation` is true the pending frame is also cancelled; when it is
false the source additionally schedules a deferred `lastTick` / `velocity`
reset, which is immaterial to the claims below and not modelled.) -/
def scrollComplete (beforeNewAnimation : Bool) (s : State) : State × List Nat :=
  ({ s with accumulated := 0, animation := false, behavior := none,
            listeners := [] }, s.listeners)

/-- What the synchronous prefix of a `scrollToBottom(scrollBehavior?,
waitForPendingScroll?)` call produces: the mutated state, the resolvers fired
by the eager `scrollComplete(true)`, the `targetScrollTop` captured for the
run, and the merged behavior captured by the run's `animateScroll` closure. -/
structure EntryOut where
  state : State
  resolved : List Nat
  capturedTarget : ℚ
  behavior : Merged
deriving DecidableEq

/-- The synchronous prefix of `scrollToBottom` (everything before the
`await`): force `isAtBottom := true`; unless waiting, complete any pending
run; merge `options`, `state.behavior` and the call argument; store the
merged behavior; capture `targetScrollTop`; schedule the animation frame
(`state.animation ||= requestAnimationFrame(animateScroll)`); register the
caller's resolver `fid`. -/
def scrollToBottomEntry (opts : Options) (scrollBehavior : Option Behavior)
    (waitForPendingScroll : Bool) (fid : Nat) (s : State) : EntryOut :=
  let s := updateIsAtBottom s (some true)
  let p := if waitForPendingScroll then (s, ([] : List Nat))
           else scrollComplete true s
  let s := p.1
  let behavior := mergeBehaviors
    [some opts.asBehavior, s.behavior.map Merged.toBehavior, scrollBehavior]
  let s := { s with behavior := some behavior }
  let captured := s.targetScrollTop
  let s := { s with animation := true }
  let s := { s with listeners := fid :: s.listeners }
  { state := s, resolved := p.2, capturedTarget := captured,
    behavior := behavior }

/-- The arithmetic body of one non-instant `animateScroll` frame at time `t`
with normalized elapsed time `tickDelta`:
`velocity = (damping * velocity + stiffness * scrollDifference) / mass`;
`accumulated += velocity * tickDelta`; `scrollTop += accumulated` (through the
clamping setter); `lastTick = tick`; reset `accumulated` once it reaches
`MIN_SCROLL_AMOUNT_PX`. -/
def springIntegrate (b : Spring) (tickDelta t : ℚ) (s : State) : State :=
  let velocity := (b.damping * s.velocity + b.stiffness * s.scrollDifference) / b.mass
  let accumulated := s.accumulated + velocity * tickDelta
  let s := setScrollTop
    { s with velocity := velocity, accumulated := accumulated }
    (s.scrollTopVal + accumulated)
  let s := { s with lastTick := some t }
  if MIN_SCROLL_AMOUNT_PX ≤ accumulated then { s with accumulated := 0 } else s

/-- The observable outcome of one `animateScroll` frame: either the run
resolves (`completes`, carrying the final state, the resolver list, the
`isAtBottom` value the awaiting callers will return, and — when the live
target moved past the reached one — the behavior and captured target of the
follow-up run queued behind it), or it `steps` and schedules the next frame. -/
inductive FrameOut where
  | completes (s : State) (resolved : List Nat) (value : Bool)
      (followup : Option (Merged × ℚ))
  | steps (s : State)
deriving DecidableEq

/-- The state carried by a frame outcome. -/
def FrameOut.state : FrameOut → State
  | .completes s _ _ _ => s
  | .steps s => s

/-- Whether the frame completed the run. -/
def FrameOut.isCompletes : FrameOut → Bool
  | .completes _ _ _ _ => true
  | .steps _ => false

/-- The resolvers fired by the frame. -/
def FrameOut.resolved : FrameOut → List Nat
  | .completes _ r _ _ => r
  | .steps _ => []

/-- The `isAtBottom` value the resolved callers observe. -/
def FrameOut.value : FrameOut → Bool
  | .completes _ _ v _ => v
  | .steps _ => true

/-- The follow-up run queued by the frame, if any. -/
def FrameOut.followup : FrameOut → Option (Merged × ℚ)
  | .completes _ _ _ f => f
  | .steps _ => none

/-- One `animateScroll` frame of the run that captured `capturedTarget` and
`behavior`, executed at time `t`.  In source order: clear `state.animation`;
complete if `isAtBottom` fell; complete once `scrollTop` reaches the lesser of
the captured and the live target, chaining
`scrollToBottom(mergeBehaviors(options, options.resizeBehavior), true)`
(resolver id `fid`) first when the live target has moved further; jump and
complete for `instant`; otherwise integrate one spring step and reschedule. -/
def animateScrollFrame (opts : Options) (capturedTarget : ℚ) (behavior : Merged)
    (t : ℚ) (fid : Nat) (s : State) : FrameOut :=
  let s := { s with animation := false }
  if s.isAtBottom = false then
    let p := scrollComplete false s
    .completes p.1 p.2 p.1.isAtBottom none
  else if min capturedTarget s.targetScrollTop ≤ s.scrollTopVal then
    if s.scrollTopVal < s.targetScrollTop then
      let follow := mergeBehaviors [some opts.asBehavior, opts.resizeBehavior]
      let e := scrollToBottomEntry opts (some follow.toBehavior) true fid s
      let p := scrollComplete false e.state
      .completes p.1 p.2 p.1.isAtBottom (some (e.behavior, e.capturedTarget))
    else
      let p := scrollComplete false s
      .completes p.1 p.2 p.1.isAtBottom none
  else
    match behavior with
    | .instant =>
        let s := setScrollTop s s.targetScrollTop
        let p := scrollComplete false s
        .completes p.1 p.2 p.1.isAtBottom none
    | .spring b =>
        let tickDelta := (t - (s.lastTick.getD t)) / SIXTY_FPS_INTERVAL_MS
        .steps { springIntegrate b tickDelta t s with animation := true }

/-- A content resize notification: the content box's new `height` together
with the viewport's resulting `scrollHeight` (the DOM reflects the resize
before the `ResizeObserver` callback fires). -/
def deliverResize (s : State) (newScrollHeight : ℚ) : State :=
  match s.viewport with
  | none => s
  | some v => { s with viewport := some { v with scrollHeight := newScrollHeight } }

/-- The `ResizeObserver` callback: compute the signed `difference` against the
closure's `previousHeight` (first observation counts as zero), record it as
`resizeDifference`; on growth re-stick via
`scrollToBottom(mergeBehaviors(options, previousHeight ? resizeBehavior :
initialBehavior), true)` only when already at bottom (a `previousHeight` of
`0` is falsy in the source); on shrink near the bottom, un-escape the lock and
recompute `isAtBottom`. -/
def handleResize (opts : Options) (previousHeight : Option ℚ)
    (height newScrollHeight : ℚ) (fid : Nat) (s : State) : State :=
  let s := deliverResize s newScrollHeight
  let difference := height - previousHeight.getD height
  let s := { s with resizeDifference := difference }
  if 0 ≤ difference then
    if s.isAtBottom then
      let preset :=
        match previousHeight with
        | some h => if h ≠ 0 then opts.resizeBehavior else opts.initialBehavior
        | none => opts.initialBehavior
      let behavior := mergeBehaviors [some opts.asBehavior, preset]
      (scrollToBottomEntry opts (some behavior.toBehavior) true fid s).state
    else s
  else
    if s.isNearBottomB then updateIsAtBottom (setEscapedFromLock s false) none
    else s

/-- The deferred (`requestAnimationFrame` + `setTimeout`) reset at the end of
the resize callback: clear `resizeDifference`, but only when no newer resize
superseded the recorded `difference`. -/
def clearResizeDifference (difference : ℚ) (s : State) : State :=
  if s.resizeDifference = difference then { s with resizeDifference := 0 } else s

/-- The operations through which the hook's published lock state can change:
a whole scroll notification, a wheel notification, a resize notification, an
explicit `scrollToBottom` call, and the deferred `resizeDifference` reset. -/
inductive Op where
  | scrollNotify (o : ℚ)
  | wheel (deltaY : ℚ)
  | resize (previousHeight : Option ℚ) (height newScrollHeight : ℚ) (fid : Nat)
  | toBottom (b : Option Behavior) (wait : Bool) (fid : Nat)
  | clearResize (difference : ℚ)

/-- Dispatch one operation against the state. -/
def step (opts : Options) (op : Op) (s : State) : State :=
  match op with
  | .scrollNotify o => processScroll s o
  | .wheel d => handleWheel d s
  | .resize ph h nsh fid => handleResize opts ph h nsh fid s
  | .toBottom b w fid => (scrollToBottomEntry opts b w fid s).state
  | .clearResize d => clearResizeDifference d s

/-- The guard at the top of `scrollToBottom` in the repository's earlier
revision (`part_000` lines 97-102): calling it with no viewport attached
throws `Scroll to bottom called before scrollRef is set`. -/
inductive ScrollToBottomError where
  | scrollRefNotSet
deriving DecidableEq

/-- The earlier revision's attachment check, as an `Except`. -/
def scrollToBottomLegacyGuard (s : State) : Except ScrollToBottomError Unit :=
  match s.viewport with
  | none => .error .scrollRefNotSet
  | some _ => .ok ()

/-! ## Helper lemmas about individual operations -/

@[simp] theorem setScrollTop_escapedFromLock (s : State) (x : ℚ) :
    (setScrollTop s x).escapedFromLock = s.escapedFromLock := by
  unfold setScrollTop; cases s.viewport <;> rfl

@[simp] theorem setScrollTop_isAtBottom (s : State) (x : ℚ) :
    (setScrollTop s x).isAtBottom = s.isAtBottom := by
  unfold setScrollTop; cases s.viewport <;> rfl

@[simp] theorem setScrollTop_lastScrollTop (s : State) (x : ℚ) :
    (setScrollTop s x).lastScrollTop = s.lastScrollTop := by
  unfold setScrollTop; cases s.viewport <;> rfl

@[simp] theorem setScrollTop_resizeDifference (s : State) (x : ℚ) :
    (setScrollTop s x).resizeDifference = s.resizeDifference := by
  unfold setScrollTop; cases s.viewport <;> rfl

@[simp] theorem setScrollTop_listeners (s : State) (x : ℚ) :
    (setScrollTop s x).listeners = s.listeners := by
  unfold setScrollTop; cases s.viewport <;> rfl

@[simp] theorem setScrollTop_velocity (s : State) (x : ℚ) :
    (setScrollTop s x).velocity = s.velocity := by
  unfold setScrollTop; cases s.viewport <;> rfl

@[simp] theorem setScrollTop_accumulated (s : State) (x : ℚ) :
    (setScrollTop s x).accumulated = s.accumulated := by
  unfold setScrollTop; cases s.viewport <;> rfl

@[simp] theorem setScrollTop_lastTick (s : State) (x : ℚ) :
    (setScrollTop s x).lastTick = s.lastTick := by
  unfold setScrollTop; cases s.viewport <;> rfl

@[simp] theorem setScrollTop_behavior (s : State) (x : ℚ) :
    (setScrollTop s x).behavior = s.behavior := by
  unfold setScrollTop; cases s.viewport <;> rfl

@[simp] theorem setScrollTop_animation (s : State) (x : ℚ) :
    (setScrollTop s x).animation = s.animation := by
  unfold setScrollTop; cases s.viewport <;> rfl

@[simp] theorem setScrollTop_targetScrollTop (s : State) (x : ℚ) :
    (setScrollTop s x).targetScrollTop = s.targetScrollTop := by
  unfold setScrollTop State.targetScrollTop
  cases h : s.viewport <;> simp [h]

@[simp] theorem setScrollTop_viewport_isSome (s : State) (x : ℚ) :
    (setScrollTop s x).viewport.isSome = s.viewport.isSome := by
  unfold setScrollTop
  cases h : s.viewport <;> simp [h]

@[simp] theorem updateIsAtBottom_escapedFromLock (s : State) (v : Option Bool) :
    (updateIsAtBottom s v).escapedFromLock = s.escapedFromLock := rfl

@[simp] theorem updateIsAtBottom_viewport (s : State) (v : Option Bool) :
    (updateIsAtBottom s v).viewport = s.viewport := rfl

@[simp] theorem updateIsAtBottom_lastScrollTop (s : State) (v : Option Bool) :
    (updateIsAtBottom s v).lastScrollTop = s.lastScrollTop := rfl

@[simp] theorem updateIsAtBottom_ignoreScrollToTop (s : State) (v : Option Bool) :
    (updateIsAtBottom s v).ignoreScrollToTop = s.ignoreScrollToTop := rfl

@[simp] theorem updateIsAtBottom_resizeDifference (s : State) (v : Option Bool) :
    (updateIsAtBottom s v).resizeDifference = s.resizeDifference := rfl

@[simp] theorem setEscapedFromLock_isAtBottom (s : State) (e : Bool) :
    (setEscapedFromLock s e).isAtBottom = s.isAtBottom := rfl

@[simp] theorem setEscapedFromLock_viewport (s : State) (e : Bool) :
    (setEscapedFromLock s e).viewport = s.viewport := rfl

/-! ## Claim C10 -/

/-- Claim C10: a wheel notification with non-negative `deltaY` changes nothing
at all, and the wheel handler can never clear `escapedFromLock` — it either
leaves the state untouched or sets `escapedFromLock` to `true`. -/
theorem wheel_nonnegative_noop (s : State) (deltaY : ℚ) :
    (0 ≤ deltaY → handleWheel deltaY s = s) ∧
    ((handleWheel deltaY s).escapedFromLock = s.escapedFromLock ∨
      (handleWheel deltaY s).escapedFromLock = true) := by
  unfold handleWheel
  by_cases h : deltaY < 0
  · refine ⟨fun h0 => absurd h (not_lt.mpr h0), ?_⟩
    rw [if_pos h]
    exact Or.inr rfl
  · rw [if_neg h]
    exact ⟨fun _ => rfl, Or.inl rfl⟩

/-- Witness for `wheel_nonnegative_noop` at `deltaY = 1` on the initial
state. -/
theorem wheel_nonnegative_noop_witness :
    (0 : ℚ) ≤ 1 ∧ handleWheel 1 initialState = initialState :=
  ⟨by norm_num, (wheel_nonnegative_noop initialState 1).1 (by norm_num)⟩

/-! ## Claim C6 -/

/-- Claim C6: a scroll notification whose reported offset strictly exceeds the
captured `targetScrollTop` is pure overscroll correction — the deferred
handler writes the offset back to `targetScrollTop`, records the write in
`ignoreScrollToTop` (self-caused), and stops: `escapedFromLock` and
`isAtBottom` are untouched.  (`heq` says geometry did not change between the
event and its deferred tick; `h0` rules out the degenerate negative-target
viewport, where the browser would floor the write at `0`.) -/
theorem overscroll_correction (c : ScrollCapture) (s : State) (v : Viewport)
    (hv : s.viewport = some v)
    (heq : c.targetScrollTop = s.targetScrollTop)
    (h0 : 0 ≤ s.targetScrollTop)
    (hover : c.targetScrollTop < c.scrollTop) :
    (handleScrollDeferred c s).viewport =
      some { v with scrollTop := s.targetScrollTop } ∧
    (handleScrollDeferred c s).ignoreScrollToTop = some s.targetScrollTop ∧
    (handleScrollDeferred c s).escapedFromLock = s.escapedFromLock ∧
    (handleScrollDeferred c s).isAtBottom = s.isAtBottom := by
  have htv : s.targetScrollTop = v.scrollHeight - MIN_SCROLL_AMOUNT_PX - v.clientHeight := by
    unfold State.targetScrollTop
    rw [hv]
  have hw : elementWrite v s.targetScrollTop = s.targetScrollTop := by
    unfold elementWrite
    rw [min_eq_left, max_eq_right h0]
    rw [htv]
    unfold MIN_SCROLL_AMOUNT_PX
    linarith
  unfold handleScrollDeferred
  rw [if_pos hover, heq]
  refine ⟨?_, ?_, by simp, by simp⟩
  · unfold setScrollTop
    rw [if_neg (lt_irrefl _), hv]
    simp [hw]
  · unfold setScrollTop
    rw [if_neg (lt_irrefl _), hv]
    simp [hw]

/-- Witness for `overscroll_correction`: the spec's own example — target 980,
reported offset 1000 — on a viewport of `scrollHeight = 1080.5`,
`clientHeight = 100`. -/
theorem overscroll_correction_witness :
    (handleScrollDeferred ⟨1000, none, 980, 980⟩
        { initialState with viewport := some ⟨1000, 2161/2, 100⟩ }).viewport =
      some ⟨980, 2161/2, 100⟩ ∧
    (handleScrollDeferred ⟨1000, none, 980, 980⟩
        { initialState with viewport := some ⟨1000, 2161/2, 100⟩ }).ignoreScrollToTop =
      some 980 ∧
    (handleScrollDeferred ⟨1000, none, 980, 980⟩
        { initialState with viewport := some ⟨1000, 2161/2, 100⟩ }).escapedFromLock =
      false ∧
    (handleScrollDeferred ⟨1000, none, 980, 980⟩
        { initialState with viewport := some ⟨1000, 2161/2, 100⟩ }).isAtBottom =
      true := by
  have h := overscroll_correction ⟨1000, none, 980, 980⟩
    { initialState with viewport := some ⟨1000, 2161/2, 100⟩ } ⟨1000, 2161/2, 100⟩
    rfl (by norm_num [State.targetScrollTop, MIN_SCROLL_AMOUNT_PX])
    (by norm_num [State.targetScrollTop, MIN_SCROLL_AMOUNT_PX])
    (by norm_num)
  refine ⟨?_, ?_, ?_, ?_⟩
  · rw [h.1]
    norm_num [State.targetScrollTop, MIN_SCROLL_AMOUNT_PX]
  · rw [h.2.1]
    norm_num [State.targetScrollTop, MIN_SCROLL_AMOUNT_PX]
  · exact h.2.2.1
  · exact h.2.2.2

/-! ## Claim C7 -/

/-- The field-by-field override accumulation on its own, without the instant
flag; used to state the amended characterization of `mergeBehaviors`. -/
def mergeFieldsOnly (acc : Spring) (b : Option Behavior) : Spring :=
  match b with
  | some (.springLike d st m) =>
      { damping := d.getD acc.damping, stiffness := st.getD acc.stiffness,
        mass := m.getD acc.mass }
  | _ => acc

/-- Modelled from the claim's words, for comparison with the source's
`mergeBehaviors` (claim C7): encountering `instant` "resets the accumulated
overrides" to the global defaults and marks the result instant; a later
non-instant entry clears the mark, after which "merging resumes from
defaults". -/
def mergeStepPerClaim : Spring × Bool → Option Behavior → Spring × Bool
  | (_, _), some .instant => (DEFAULT_SPRING_BEHAVIOR, true)
  | (acc, _), some (.springLike d st m) =>
      ({ damping := d.getD acc.damping, stiffness := st.getD acc.stiffness,
         mass := m.getD acc.mass }, false)
  | (acc, _), _ => (acc, false)

/-- The behavior merger as the claim describes it. -/
def mergeBehaviorsPerClaim (bs : List (Option Behavior)) : Merged :=
  let r := bs.foldl mergeStepPerClaim (DEFAULT_SPRING_BEHAVIOR, false)
  if r.2 then .instant else .spring r.1

theorem mergeBehaviors_foldl_spec (bs : List (Option Behavior)) :
    (bs.foldl mergeStep (DEFAULT_SPRING_BEHAVIOR, false)).1 =
      bs.foldl mergeFieldsOnly DEFAULT_SPRING_BEHAVIOR ∧
    (bs.foldl mergeStep (DEFAULT_SPRING_BEHAVIOR, false)).2 =
      decide (bs.getLast? = some (some Behavior.instant)) := by
  induction bs using List.reverseRecOn with
  | nil => simp
  | append_singleton xs x ih =>
      rw [List.foldl_append, List.foldl_append, List.getLast?_concat]
      rcases ih with ⟨ih1, ih2⟩
      match x with
      | some .instant => simp [mergeStep, mergeFieldsOnly, ih1]
      | some (.springLike d st m) => simp [mergeStep, mergeFieldsOnly, ih1]
      | some .auto => simp [mergeStep, mergeFieldsOnly, ih1]
      | some .smooth => simp [mergeStep, mergeFieldsOnly, ih1]
      | none => simp [mergeStep, mergeFieldsOnly, ih1]

/-- Counterexample to claim C7 as stated: with the entry list
`[{damping := 0.5}, instant, {mass := 3}]` the source keeps the accumulated
`damping = 0.5` when the later non-instant entry clears the instant flag,
while the claim's "merging resumes from defaults" rule would produce the
default `damping = 0.7`. -/
theorem mergeBehaviors_reset_claim_cex :
    mergeBehaviors
        [some (.springLike (some (1/2)) none none), some .instant,
         some (.springLike none none (some 3))] =
      .spring { damping := 1/2, stiffness := 1/20, mass := 3 } ∧
    mergeBehaviorsPerClaim
        [some (.springLike (some (1/2)) none none), some .instant,
         some (.springLike none none (some 3))] =
      .spring { damping := 7/10, stiffness := 1/20, mass := 3 } ∧
    mergeBehaviors
        [some (.springLike (some (1/2)) none none), some .instant,
         some (.springLike none none (some 3))] ≠
      mergeBehaviorsPerClaim
        [some (.springLike (some (1/2)) none none), some .instant,
         some (.springLike none none (some 3))] := by
  refine ⟨?_, ?_, ?_⟩ <;>
    norm_num [mergeBehaviors, mergeBehaviorsPerClaim, mergeStep,
      mergeStepPerClaim, DEFAULT_SPRING_BEHAVIOR]

/-- Claim C7 (amended): the merger produces one fully populated spring set or
the instant sentinel; later entries override earlier ones field-by-field,
missing fields falling back through the accumulated values to the global
defaults; an `instant` entry only marks the result instant (it does NOT reset
the accumulated overrides), any later non-instant entry — object, named
preset or absent — clears the mark and merging resumes from the accumulated
values; the result is instant exactly when the final entry is `instant`. -/
theorem mergeBehaviors_characterization (bs : List (Option Behavior)) :
    mergeBehaviors bs =
      if bs.getLast? = some (some Behavior.instant) then Merged.instant
      else Merged.spring (bs.foldl mergeFieldsOnly DEFAULT_SPRING_BEHAVIOR) := by
  have h := mergeBehaviors_foldl_spec bs
  show (if (bs.foldl mergeStep (DEFAULT_SPRING_BEHAVIOR, false)).2 = true
      then Merged.instant
      else Merged.spring (bs.foldl mergeStep (DEFAULT_SPRING_BEHAVIOR, false)).1) = _
  rw [h.2, h.1]
  by_cases hl : bs.getLast? = some (some Behavior.instant)
  · simp [hl]
  · simp [hl]

/-! ## Claim C3 -/

/-- Claim C3 (amended): whenever a resize delta is pending at the deferred
tick, the scroll notification is suppressed unconditionally — there is no
"scroll delta exceeds the resize delta" exception — so `escapedFromLock` and
`isAtBottom` are left unchanged. -/
theorem resize_suppression_unconditional (c : ScrollCapture) (s : State)
    (h : s.resizeDifference ≠ 0) :
    (handleScrollDeferred c s).escapedFromLock = s.escapedFromLock ∧
    (handleScrollDeferred c s).isAtBottom = s.isAtBottom := by
  unfold handleScrollDeferred
  by_cases hover : c.targetScrollTop < c.scrollTop
  · rw [if_pos hover]
    exact ⟨by simp, by simp⟩
  · rw [if_neg hover, if_pos (Or.inl h)]
    exact ⟨rfl, rfl⟩

/-- Counterexample to claim C3's "UNLESS" clause: a pending resize delta of
`50` with an upward scroll delta of `100` (from `500` down to `400`, well
below the target of `1000`).  The claim classifies this as a genuine user
action and predicts `escapedFromLock` flips to `true`; the source suppresses
the notification and leaves it `false`. -/
theorem resize_suppression_unless_clause_cex :
    ({ initialState with
        viewport := some ⟨400, 2201/2, 100⟩,
        resizeDifference := 50,
        lastScrollTop := some 500 } : State).resizeDifference = 50 ∧
    (50 : ℚ) < 500 - 400 ∧
    (handleScrollDeferred ⟨400, none, 1000, 500⟩
        { initialState with
          viewport := some ⟨400, 2201/2, 100⟩,
          resizeDifference := 50,
          lastScrollTop := some 500 }).escapedFromLock = false := by
  refine ⟨rfl, by norm_num, ?_⟩
  norm_num [handleScrollDeferred, initialState]

/-- Witness for `resize_suppression_unconditional`: the spec's +50px scenario —
a pending resize delta of `+50` and the matching `+50` scroll notification
(from `500` up to `550`) leave `escapedFromLock` (and `isAtBottom`)
unchanged. -/
theorem resize_suppression_unconditional_witness :
    (handleScrollDeferred ⟨550, none, 1000, 500⟩
        { initialState with
          viewport := some ⟨550, 2201/2, 100⟩,
          resizeDifference := 50,
          lastScrollTop := some 500 }).escapedFromLock =
      ({ initialState with
          viewport := some ⟨550, 2201/2, 100⟩,
          resizeDifference := 50,
          lastScrollTop := some 500 } : State).escapedFromLock ∧
    (handleScrollDeferred ⟨550, none, 1000, 500⟩
        { initialState with
          viewport := some ⟨550, 2201/2, 100⟩,
          resizeDifference := 50,
          lastScrollTop := some 500 }).isAtBottom =
      ({ initialState with
          viewport := some ⟨550, 2201/2, 100⟩,
          resizeDifference := 50,
          lastScrollTop := some 500 } : State).isAtBottom :=
  resize_suppression_unconditional ⟨550, none, 1000, 500⟩
    { initialState with
      viewport := some ⟨550, 2201/2, 100⟩,
      resizeDifference := 50,
      lastScrollTop := some 500 } (by norm_num)

/-! ## More helper lemmas -/

@[simp] theorem updateIsAtBottom_some (s : State) (v : Bool) :
    updateIsAtBottom s (some v) = { s with isAtBottom := v } := rfl

theorem updateIsAtBottom_true_of (s : State) (h : s.isAtBottom = true) :
    updateIsAtBottom s (some true) = s := by
  rw [← h]; rfl

@[simp] theorem updateIsAtBottom_isNearBottomB (s : State) (v : Option Bool) :
    (updateIsAtBottom s v).isNearBottomB = s.isNearBottomB := rfl

@[simp] theorem setEscapedFromLock_isNearBottomB (s : State) (e : Bool) :
    (setEscapedFromLock s e).isNearBottomB = s.isNearBottomB := rfl

@[simp] theorem scrollComplete_isAtBottom (b : Bool) (s : State) :
    (scrollComplete b s).1.isAtBottom = s.isAtBottom := rfl

@[simp] theorem scrollComplete_escapedFromLock (b : Bool) (s : State) :
    (scrollComplete b s).1.escapedFromLock = s.escapedFromLock := rfl

@[simp] theorem scrollComplete_viewport (b : Bool) (s : State) :
    (scrollComplete b s).1.viewport = s.viewport := rfl

theorem scrollToBottomEntry_isAtBottom (opts : Options) (b : Option Behavior)
    (w : Bool) (fid : Nat) (s : State) :
    (scrollToBottomEntry opts b w fid s).state.isAtBottom = true := by
  cases w <;> rfl

theorem scrollToBottomEntry_animation (opts : Options) (b : Option Behavior)
    (w : Bool) (fid : Nat) (s : State) :
    (scrollToBottomEntry opts b w fid s).state.animation = true := by
  cases w <;> rfl

theorem springIntegrate_isAtBottom (b : Spring) (tickDelta t : ℚ) (s : State) :
    (springIntegrate b tickDelta t s).isAtBottom = s.isAtBottom := by
  unfold springIntegrate
  dsimp only
  split <;> simp

@[simp] theorem deliverScroll_isAtBottom (s : State) (o : ℚ) :
    (deliverScroll s o).isAtBottom = s.isAtBottom := by
  unfold deliverScroll
  cases h : s.viewport <;> simp [h]

@[simp] theorem deliverScroll_escapedFromLock (s : State) (o : ℚ) :
    (deliverScroll s o).escapedFromLock = s.escapedFromLock := by
  unfold deliverScroll
  cases h : s.viewport <;> simp [h]

@[simp] theorem deliverResize_isAtBottom (s : State) (h : ℚ) :
    (deliverResize s h).isAtBottom = s.isAtBottom := by
  unfold deliverResize
  cases hv : s.viewport <;> simp [hv]

@[simp] theorem deliverResize_escapedFromLock (s : State) (h : ℚ) :
    (deliverResize s h).escapedFromLock = s.escapedFromLock := by
  unfold deliverResize
  cases hv : s.viewport <;> simp [hv]

@[simp] theorem deliverResize_animation (s : State) (h : ℚ) :
    (deliverResize s h).animation = s.animation := by
  unfold deliverResize
  cases hv : s.viewport <;> simp [hv]

@[simp] theorem handleScrollEvent_fst_isAtBottom (s : State) :
    ((handleScrollEvent s).1).isAtBottom = s.isAtBottom := rfl

@[simp] theorem handleScrollEvent_fst_escapedFromLock (s : State) :
    ((handleScrollEvent s).1).escapedFromLock = s.escapedFromLock := rfl

@[simp] theorem setEscapedFromLock_escapedFromLock (s : State) (e : Bool) :
    (setEscapedFromLock s e).escapedFromLock = e := rfl

/-- In every branch, the deferred scroll classification either leaves
`isAtBottom` untouched or assigns it the recompute rule evaluated on the
resulting state. -/
theorem handleScrollDeferred_isAtBottom (c : ScrollCapture) (s : State) :
    (handleScrollDeferred c s).isAtBottom = s.isAtBottom ∨
    (handleScrollDeferred c s).isAtBottom =
      (if (handleScrollDeferred c s).escapedFromLock then false
       else ((handleScrollDeferred c s).isNearBottomB || s.isAtBottom)) := by
  unfold handleScrollDeferred
  split
  · exact Or.inl (by simp)
  · split
    · exact Or.inl rfl
    · refine Or.inr ?_
      dsimp only
      split
      · simp [updateIsAtBottom, setEscapedFromLock, State.isNearBottomB,
          State.scrollDifference, State.targetScrollTop, State.scrollTopVal]
      · split <;>
          simp [updateIsAtBottom, setEscapedFromLock, State.isNearBottomB,
            State.scrollDifference, State.targetScrollTop, State.scrollTopVal]

/-- In every branch, the resize reconciler either leaves `isAtBottom`
untouched (its re-stick call only ever fires when `isAtBottom` is already
true, so forcing it true is a no-op) or assigns it the recompute rule. -/
theorem handleResize_isAtBottom (opts : Options) (ph : Option ℚ)
    (h nsh : ℚ) (fid : Nat) (s : State) :
    (handleResize opts ph h nsh fid s).isAtBottom = s.isAtBottom ∨
    (handleResize opts ph h nsh fid s).isAtBottom =
      (if (handleResize opts ph h nsh fid s).escapedFromLock then false
       else ((handleResize opts ph h nsh fid s).isNearBottomB || s.isAtBottom)) := by
  unfold handleResize
  dsimp only
  split
  · split
    · exact Or.inl (by rw [scrollToBottomEntry_isAtBottom]; simp_all)
    · exact Or.inl (by simp)
  · split
    · refine Or.inr ?_
      simp [updateIsAtBottom, setEscapedFromLock, State.isNearBottomB,
        State.scrollDifference, State.targetScrollTop, State.scrollTopVal]
    · exact Or.inl (by simp)

theorem frame_preserves_isAtBottom (opts : Options) (ct : ℚ) (b : Merged)
    (t : ℚ) (fid : Nat) (s : State) :
    (animateScrollFrame opts ct b t fid s).state.isAtBottom = s.isAtBottom := by
  unfold animateScrollFrame
  by_cases h1 : ({ s with animation := false } : State).isAtBottom = false
  · rw [if_pos h1]
    simpa [FrameOut.state] using h1
  · rw [if_neg h1]
    have hbot : s.isAtBottom = true := by
      have : ¬s.isAtBottom = false := h1
      simpa using this
    split
    · split
      · simp [FrameOut.state, scrollToBottomEntry_isAtBottom, hbot]
      · simp [FrameOut.state, hbot]
    · match b with
      | .instant => simp [FrameOut.state, hbot]
      | .spring sp => simp [FrameOut.state, springIntegrate_isAtBottom, hbot]

/-! ## Claim C1 -/

/-- Claim C1: across every operation that can touch the published lock state —
scroll-notification classification, wheel, resize reconciliation,
`scrollToBottom` and the deferred `resizeDifference` reset — the resulting
`isAtBottom` is either left untouched, or equals the recompute rule
`escapedLock ? false : (isNearBottom || previous isAtBottom)` evaluated on the
resulting state, with exactly two forced exceptions: an explicit
`scrollToBottom` call forces `true` and a wheel-up forces `false`; and no
animation frame ever writes `isAtBottom` at all. -/
theorem isAtBottom_update_rule (opts : Options) (op : Op) (s : State) :
    ((step opts op s).isAtBottom = s.isAtBottom ∨
     (step opts op s).isAtBottom =
       (if (step opts op s).escapedFromLock then false
        else ((step opts op s).isNearBottomB || s.isAtBottom)) ∨
     ((∃ b w fid, op = Op.toBottom b w fid) ∧ (step opts op s).isAtBottom = true) ∨
     ((∃ d, op = Op.wheel d ∧ d < 0) ∧ (step opts op s).isAtBottom = false)) ∧
    (∀ ct b t fid,
      (animateScrollFrame opts ct b t fid s).state.isAtBottom = s.isAtBottom) := by
  refine ⟨?_, fun ct b t fid => frame_preserves_isAtBottom opts ct b t fid s⟩
  match op with
  | .scrollNotify o =>
      rw [show step opts (Op.scrollNotify o) s = processScroll s o from rfl]
      rw [show processScroll s o =
          handleScrollDeferred (handleScrollEvent (deliverScroll s o)).2
            (handleScrollEvent (deliverScroll s o)).1 from rfl]
      rcases handleScrollDeferred_isAtBottom
          (handleScrollEvent (deliverScroll s o)).2
          (handleScrollEvent (deliverScroll s o)).1 with h | h
      · exact Or.inl (by rw [h]; simp)
      · refine Or.inr (Or.inl ?_)
        rw [h]
        simp
  | .wheel d =>
      rw [show step opts (Op.wheel d) s = handleWheel d s from rfl]
      unfold handleWheel
      by_cases hd : d < 0
      · rw [if_pos hd]
        exact Or.inr (Or.inr (Or.inr ⟨⟨d, rfl, hd⟩, rfl⟩))
      · rw [if_neg hd]
        exact Or.inl rfl
  | .resize ph h nsh fid =>
      rw [show step opts (Op.resize ph h nsh fid) s =
          handleResize opts ph h nsh fid s from rfl]
      rcases handleResize_isAtBottom opts ph h nsh fid s with h1 | h1
      · exact Or.inl h1
      · exact Or.inr (Or.inl h1)
  | .toBottom b w fid =>
      exact Or.inr (Or.inr (Or.inl ⟨⟨b, w, fid, rfl⟩,
        scrollToBottomEntry_isAtBottom opts b w fid s⟩))
  | .clearResize d =>
      rw [show step opts (Op.clearResize d) s = clearResizeDifference d s from rfl]
      unfold clearResizeDifference
      split <;> exact Or.inl rfl

/-! ## Claim C8 -/

/-- Counterexample to claim C8: the current `scrollToBottom` exposes no
only-if-already-at-bottom option at all — its full parameter surface is
`(scrollBehavior?, waitForPendingScroll?)` — and calling it while
`isAtBottom = false` is never a no-op: it immediately forces
`isAtBottom := true` and schedules an animation run. -/
theorem scrollToBottom_only_if_already_cex :
    ({ initialState with
        viewport := some ⟨400, 2201/2, 100⟩,
        isAtBottom := false,
        escapedFromLock := true } : State).isAtBottom = false ∧
    (scrollToBottomEntry Options.empty none false 0
        { initialState with
          viewport := some ⟨400, 2201/2, 100⟩,
          isAtBottom := false,
          escapedFromLock := true }).state.isAtBottom = true ∧
    (scrollToBottomEntry Options.empty none false 0
        { initialState with
          viewport := some ⟨400, 2201/2, 100⟩,
          isAtBottom := false,
          escapedFromLock := true }).state.animation = true := by
  exact ⟨rfl, rfl, rfl⟩

/-- Claim C8 (amended): the code offers no only-if-already option — every
`scrollToBottom` call, with any arguments, immediately sets `isAtBottom` to
`true` and schedules a run.  The only-if-already semantics live solely at the
resize-reconciler call site: a growth resize observed while `isAtBottom` is
`false` skips `scrollToBottom` entirely, leaving `isAtBottom` false, the
animation handle untouched and the scroll offset unmutated. -/
theorem scrollToBottom_always_engages (opts : Options) (b : Option Behavior)
    (w : Bool) (fid : Nat) (s : State) (ph : Option ℚ) (h nsh : ℚ) (fid2 : Nat) :
    (scrollToBottomEntry opts b w fid s).state.isAtBottom = true ∧
    (scrollToBottomEntry opts b w fid s).state.animation = true ∧
    (s.isAtBottom = false → ph.getD h ≤ h →
      (handleResize opts ph h nsh fid2 s).isAtBottom = false ∧
      (handleResize opts ph h nsh fid2 s).animation = s.animation ∧
      (handleResize opts ph h nsh fid2 s).viewport.map Viewport.scrollTop =
        s.viewport.map Viewport.scrollTop) := by
  refine ⟨scrollToBottomEntry_isAtBottom opts b w fid s,
    scrollToBottomEntry_animation opts b w fid s, fun hbot hg => ?_⟩
  unfold handleResize
  rw [if_pos (by simpa using hg)]
  rw [if_neg (by cases hv : s.viewport <;> simp [deliverResize, hv, hbot])]
  cases hv : s.viewport <;> simp [deliverResize, hv, hbot]

/-- Witness for `scrollToBottom_always_engages`: a growth resize (height 200
over a previous 150) on a viewport that is not at bottom. -/
theorem scrollToBottom_always_engages_witness :
    (scrollToBottomEntry Options.empty none false 0
        { initialState with
          viewport := some ⟨400, 2201/2, 100⟩,
          isAtBottom := false }).state.isAtBottom = true ∧
    (scrollToBottomEntry Options.empty none false 0
        { initialState with
          viewport := some ⟨400, 2201/2, 100⟩,
          isAtBottom := false }).state.animation = true ∧
    (({ initialState with
        viewport := some ⟨400, 2201/2, 100⟩,
        isAtBottom := false } : State).isAtBottom = false →
      (some (150 : ℚ)).getD 200 ≤ 200 →
      (handleResize Options.empty (some 150) 200 (2301/2) 1
          { initialState with
            viewport := some ⟨400, 2201/2, 100⟩,
            isAtBottom := false }).isAtBottom = false ∧
      (handleResize Options.empty (some 150) 200 (2301/2) 1
          { initialState with
            viewport := some ⟨400, 2201/2, 100⟩,
            isAtBottom := false }).animation =
        ({ initialState with
            viewport := some ⟨400, 2201/2, 100⟩,
            isAtBottom := false } : State).animation ∧
      (handleResize Options.empty (some 150) 200 (2301/2) 1
          { initialState with
            viewport := some ⟨400, 2201/2, 100⟩,
            isAtBottom := false }).viewport.map Viewport.scrollTop =
        ({ initialState with
            viewport := some ⟨400, 2201/2, 100⟩,
            isAtBottom := false } : State).viewport.map Viewport.scrollTop) := by
  have h := scrollToBottom_always_engages Options.empty none false 0
    { initialState with
      viewport := some ⟨400, 2201/2, 100⟩,
      isAtBottom := false } (some 150) 200 (2301/2) 1
  exact ⟨h.1, h.2.1, fun hb hg => h.2.2 hb hg⟩

/-! ## Claim C9 -/

/-- Counterexample to claim C9: in the current revision, invoking
`scrollToBottom` with no viewport attached is NOT surfaced as an error — the
captured target is `0`, the very first animation frame completes the run, and
the caller's promise resolves (with `true`), silently. -/
theorem detached_scrollToBottom_silent_cex :
    initialState.viewport = none ∧
    (scrollToBottomEntry Options.empty none false 0 initialState).capturedTarget = 0 ∧
    (animateScrollFrame Options.empty 0
        (scrollToBottomEntry Options.empty none false 0 initialState).behavior 0 1
        (scrollToBottomEntry Options.empty none false 0 initialState).state).isCompletes
      = true ∧
    (animateScrollFrame Options.empty 0
        (scrollToBottomEntry Options.empty none false 0 initialState).behavior 0 1
        (scrollToBottomEntry Options.empty none false 0 initialState).state).resolved
      = [0] ∧
    (animateScrollFrame Options.empty 0
        (scrollToBottomEntry Options.empty none false 0 initialState).behavior 0 1
        (scrollToBottomEntry Options.empty none false 0 initialState).state).value
      = true := by
  refine ⟨rfl, rfl, ?_, ?_, ?_⟩ <;>
    norm_num [scrollToBottomEntry, scrollComplete, updateIsAtBottom,
      animateScrollFrame, initialState, State.scrollTopVal, State.targetScrollTop,
      FrameOut.isCompletes, FrameOut.resolved, FrameOut.value]

/-- Claim C9 (amended): the current revision signals nothing when
`scrollToBottom` runs before a viewport is attached — the `targetScrollTop`
getter yields `0`, the first frame completes the run immediately and the
promise resolves `true` (the call is silently absorbed, not queued); the
synchronous throw exists only in the repository's earlier revision, whose
guard is `scrollToBottomLegacyGuard`. -/
theorem detached_scrollToBottom_resolves (opts : Options) (b : Option Behavior)
    (w : Bool) (fid fid2 : Nat) (t : ℚ) (s : State) (hv : s.viewport = none) :
    scrollToBottomLegacyGuard s = .error .scrollRefNotSet ∧
    (scrollToBottomEntry opts b w fid s).capturedTarget = 0 ∧
    (animateScrollFrame opts (scrollToBottomEntry opts b w fid s).capturedTarget
        (scrollToBottomEntry opts b w fid s).behavior t fid2
        (scrollToBottomEntry opts b w fid s).state).isCompletes = true ∧
    (animateScrollFrame opts (scrollToBottomEntry opts b w fid s).capturedTarget
        (scrollToBottomEntry opts b w fid s).behavior t fid2
        (scrollToBottomEntry opts b w fid s).state).resolved =
      fid :: (if w then s.listeners else []) ∧
    (animateScrollFrame opts (scrollToBottomEntry opts b w fid s).capturedTarget
        (scrollToBottomEntry opts b w fid s).behavior t fid2
        (scrollToBottomEntry opts b w fid s).state).value = true := by
  refine ⟨by unfold scrollToBottomLegacyGuard; rw [hv], ?_, ?_, ?_, ?_⟩ <;>
    cases w <;>
      simp [scrollToBottomEntry, scrollComplete, updateIsAtBottom,
        animateScrollFrame, hv, State.scrollTopVal, State.targetScrollTop,
        FrameOut.isCompletes, FrameOut.resolved, FrameOut.value]

/-- Witness for `detached_scrollToBottom_resolves` on the initial (detached)
state with a pending listener. -/
theorem detached_scrollToBottom_resolves_witness :
    scrollToBottomLegacyGuard { initialState with listeners := [5] } =
      .error .scrollRefNotSet ∧
    (scrollToBottomEntry Options.empty (some .smooth) true 9
        { initialState with listeners := [5] }).capturedTarget = 0 ∧
    (animateScrollFrame Options.empty
        (scrollToBottomEntry Options.empty (some .smooth) true 9
          { initialState with listeners := [5] }).capturedTarget
        (scrollToBottomEntry Options.empty (some .smooth) true 9
          { initialState with listeners := [5] }).behavior 3 10
        (scrollToBottomEntry Options.empty (some .smooth) true 9
          { initialState with listeners := [5] }).state).isCompletes = true ∧
    (animateScrollFrame Options.empty
        (scrollToBottomEntry Options.empty (some .smooth) true 9
          { initialState with listeners := [5] }).capturedTarget
        (scrollToBottomEntry Options.empty (some .smooth) true 9
          { initialState with listeners := [5] }).behavior 3 10
        (scrollToBottomEntry Options.empty (some .smooth) true 9
          { initialState with listeners := [5] }).state).resolved =
      9 :: (if true then ({ initialState with listeners := [5] } : State).listeners
            else []) ∧
    (animateScrollFrame Options.empty
        (scrollToBottomEntry Options.empty (some .smooth) true 9
          { initialState with listeners := [5] }).capturedTarget
        (scrollToBottomEntry Options.empty (some .smooth) true 9
          { initialState with listeners := [5] }).behavior 3 10
        (scrollToBottomEntry Options.empty (some .smooth) true 9
          { initialState with listeners := [5] }).state).value = true :=
  detached_scrollToBottom_resolves Options.empty (some .smooth) true 9 10 3
    { initialState with listeners := [5] } rfl

/-! ## Claim C5 -/

/-- Claim C5: when a frame finds the offset at or past the captured target
`ct` while the live target has grown further (and `isAtBottom` is still
true), the run terminates as completed: it first chains a follow-up
`scrollToBottom(mergeBehaviors(options, options.resizeBehavior), true)` —
queued behind the completing run, capturing the live (grown) target — and
then resolves every registered waiter exactly once (the listener set is
cleared) with value `true`. -/
theorem growing_target_chains_followup (opts : Options) (ct t : ℚ) (b : Merged)
    (fid : Nat) (s : State)
    (hbot : s.isAtBottom = true)
    (hreach : ct ≤ s.scrollTopVal)
    (hgrow : s.scrollTopVal < s.targetScrollTop) :
    animateScrollFrame opts ct b t fid s =
      .completes
        { s with
          animation := false,
          accumulated := 0,
          behavior := none,
          listeners := [] }
        (fid :: s.listeners) true
        (some (mergeBehaviors [some opts.asBehavior,
            s.behavior.map Merged.toBehavior,
            some (mergeBehaviors [some opts.asBehavior, opts.resizeBehavior]).toBehavior],
          s.targetScrollTop)) := by
  unfold animateScrollFrame
  set s1 : State := { s with animation := false } with hs1
  have h1 : s1.isAtBottom = true := hbot
  have hreach1 : ct ≤ s1.scrollTopVal := hreach
  have hgrow1 : s1.scrollTopVal < s1.targetScrollTop := hgrow
  rw [if_neg (by rw [h1]; simp)]
  rw [if_pos (le_trans (min_le_left ct s1.targetScrollTop) hreach1)]
  rw [if_pos hgrow1]
  unfold scrollToBottomEntry
  rw [updateIsAtBottom_true_of s1 h1]
  simp [scrollComplete, h1, hs1]
  exact ⟨hbot, rfl⟩

/-- Witness for `growing_target_chains_followup`: a run that captured target
150 finds the offset at 200 while the live target has grown to 300. -/
theorem growing_target_chains_followup_witness :
    animateScrollFrame Options.empty 150 Merged.instant 0 3
        { initialState with
          viewport := some ⟨200, 301, 1/2⟩,
          listeners := [7] } =
      .completes
        { ({ initialState with
            viewport := some ⟨200, 301, 1/2⟩,
            listeners := [7] } : State) with
          animation := false,
          accumulated := 0,
          behavior := none,
          listeners := [] }
        (3 :: ({ initialState with
          viewport := some ⟨200, 301, 1/2⟩,
          listeners := [7] } : State).listeners) true
        (some (mergeBehaviors [some Options.empty.asBehavior,
            ({ initialState with
              viewport := some ⟨200, 301, 1/2⟩,
              listeners := [7] } : State).behavior.map Merged.toBehavior,
            some (mergeBehaviors [some Options.empty.asBehavior,
              Options.empty.resizeBehavior]).toBehavior],
          ({ initialState with
            viewport := some ⟨200, 301, 1/2⟩,
            listeners := [7] } : State).targetScrollTop)) :=
  growing_target_chains_followup Options.empty 150 0 Merged.instant 3
    { initialState with
      viewport := some ⟨200, 301, 1/2⟩,
      listeners := [7] } rfl
    (by norm_num [State.scrollTopVal, initialState])
    (by norm_num [State.scrollTopVal, State.targetScrollTop,
      MIN_SCROLL_AMOUNT_PX, initialState])

/-! ## Claim C2 -/

@[simp] theorem deliverScroll_lastScrollTop (s : State) (o : ℚ) :
    (deliverScroll s o).lastScrollTop = s.lastScrollTop := by
  unfold deliverScroll
  cases h : s.viewport <;> simp [h]

@[simp] theorem deliverScroll_ignoreScrollToTop (s : State) (o : ℚ) :
    (deliverScroll s o).ignoreScrollToTop = s.ignoreScrollToTop := by
  unfold deliverScroll
  cases h : s.viewport <;> simp [h]

@[simp] theorem deliverScroll_resizeDifference (s : State) (o : ℚ) :
    (deliverScroll s o).resizeDifference = s.resizeDifference := by
  unfold deliverScroll
  cases h : s.viewport <;> simp [h]

@[simp] theorem deliverScroll_targetScrollTop (s : State) (o : ℚ) :
    (deliverScroll s o).targetScrollTop = s.targetScrollTop := by
  unfold deliverScroll State.targetScrollTop
  cases h : s.viewport <;> simp [h]

@[simp] theorem deliverScroll_viewport_isSome (s : State) (o : ℚ) :
    (deliverScroll s o).viewport.isSome = s.viewport.isSome := by
  unfold deliverScroll
  cases h : s.viewport <;> simp [h]

theorem deliverScroll_scrollTopVal (s : State) (v : Viewport) (o : ℚ)
    (hv : s.viewport = some v) : (deliverScroll s o).scrollTopVal = o := by
  unfold deliverScroll State.scrollTopVal
  rw [hv]
  rfl

theorem handleScrollDeferred_resizeDifference (c : ScrollCapture) (s : State) :
    (handleScrollDeferred c s).resizeDifference = s.resizeDifference := by
  unfold handleScrollDeferred
  split
  · simp
  · split
    · rfl
    · dsimp only
      split
      · simp [updateIsAtBottom, setEscapedFromLock]
      · split <;> simp [updateIsAtBottom, setEscapedFromLock]

theorem handleScrollDeferred_targetScrollTop (c : ScrollCapture) (s : State) :
    (handleScrollDeferred c s).targetScrollTop = s.targetScrollTop := by
  unfold handleScrollDeferred
  split
  · simp
  · split
    · rfl
    · dsimp only
      split
      · simp [updateIsAtBottom, setEscapedFromLock, State.targetScrollTop]
      · split <;> simp [updateIsAtBottom, setEscapedFromLock, State.targetScrollTop]

theorem handleScrollDeferred_lastScrollTop (c : ScrollCapture) (s : State) :
    (handleScrollDeferred c s).lastScrollTop = s.lastScrollTop := by
  unfold handleScrollDeferred
  split
  · simp
  · split
    · rfl
    · dsimp only
      split
      · simp [updateIsAtBottom, setEscapedFromLock]
      · split <;> simp [updateIsAtBottom, setEscapedFromLock]

theorem handleScrollDeferred_viewport_isSome (c : ScrollCapture) (s : State) :
    (handleScrollDeferred c s).viewport.isSome = s.viewport.isSome := by
  unfold handleScrollDeferred
  split
  · simp
  · split
    · rfl
    · dsimp only
      split
      · simp [updateIsAtBottom, setEscapedFromLock]
      · split <;> simp [updateIsAtBottom, setEscapedFromLock]

theorem handleScrollDeferred_ignore_of_no_overscroll (c : ScrollCapture)
    (s : State) (h : ¬c.targetScrollTop < c.scrollTop) :
    (handleScrollDeferred c s).ignoreScrollToTop = s.ignoreScrollToTop := by
  unfold handleScrollDeferred
  rw [if_neg h]
  split
  · rfl
  · dsimp only
    split
    · simp [updateIsAtBottom, setEscapedFromLock]
    · split <;> simp [updateIsAtBottom, setEscapedFromLock]

/-- Once the deferred tick reaches direction classification with an upward
delta, `escapedFromLock` is true afterwards — set if it was clear, kept if it
was already set. -/
theorem handleScrollDeferred_escapes (c : ScrollCapture) (s : State)
    (h1 : ¬c.targetScrollTop < c.scrollTop)
    (h2 : s.resizeDifference = 0)
    (h3 : ¬c.ignoreScrollToTop = some c.scrollTop)
    (h4 : c.scrollTop < c.lastScrollTop) :
    (handleScrollDeferred c s).escapedFromLock = true := by
  unfold handleScrollDeferred
  rw [if_neg h1, if_neg (by push_neg; exact ⟨by simp [h2], h3⟩)]
  dsimp only
  cases hesc : s.escapedFromLock
  · rw [if_pos ⟨rfl, h4⟩]
    simp [setEscapedFromLock]
  · rw [if_neg (by simp), if_neg (by simp [not_lt.mpr (le_of_lt h4)])]
    simp [hesc]

@[simp] theorem processScroll_resizeDifference (s : State) (o : ℚ) :
    (processScroll s o).resizeDifference = s.resizeDifference := by
  unfold processScroll
  rw [handleScrollDeferred_resizeDifference]
  simp [handleScrollEvent]

@[simp] theorem processScroll_targetScrollTop (s : State) (o : ℚ) :
    (processScroll s o).targetScrollTop = s.targetScrollTop := by
  unfold processScroll
  rw [handleScrollDeferred_targetScrollTop]
  have : ((handleScrollEvent (deliverScroll s o)).1).targetScrollTop =
      (deliverScroll s o).targetScrollTop := rfl
  rw [this, deliverScroll_targetScrollTop]

@[simp] theorem processScroll_viewport_isSome (s : State) (o : ℚ) :
    (processScroll s o).viewport.isSome = s.viewport.isSome := by
  unfold processScroll
  rw [handleScrollDeferred_viewport_isSome]
  have : ((handleScrollEvent (deliverScroll s o)).1).viewport =
      (deliverScroll s o).viewport := rfl
  rw [this, deliverScroll_viewport_isSome]

theorem processScroll_lastScrollTop (s : State) (v : Viewport) (o : ℚ)
    (hv : s.viewport = some v) :
    (processScroll s o).lastScrollTop = some o := by
  unfold processScroll
  rw [handleScrollDeferred_lastScrollTop]
  have h1 : ((handleScrollEvent (deliverScroll s o)).1).lastScrollTop =
      some ((deliverScroll s o).scrollTopVal) := rfl
  rw [h1, deliverScroll_scrollTopVal s v o hv]

theorem processScroll_ignoreScrollToTop (s : State) (v : Viewport) (o : ℚ)
    (hv : s.viewport = some v) (hot : o ≤ s.targetScrollTop) :
    (processScroll s o).ignoreScrollToTop = none := by
  unfold processScroll
  rw [handleScrollDeferred_ignore_of_no_overscroll]
  · rfl
  · show ¬(handleScrollEvent (deliverScroll s o)).2.targetScrollTop <
      (handleScrollEvent (deliverScroll s o)).2.scrollTop
    have h1 : (handleScrollEvent (deliverScroll s o)).2.targetScrollTop =
        (deliverScroll s o).targetScrollTop := rfl
    have h2 : (handleScrollEvent (deliverScroll s o)).2.scrollTop =
        (deliverScroll s o).scrollTopVal := rfl
    rw [h1, h2, deliverScroll_targetScrollTop, deliverScroll_scrollTopVal s v o hv]
    exact not_lt.mpr hot

/-- A scroll notification strictly below the previous one (with no resize
pending, no echo possible and no overscroll) leaves `escapedFromLock` set. -/
theorem processScroll_escapes (s : State) (v : Viewport) (l o : ℚ)
    (hv : s.viewport = some v) (hrd : s.resizeDifference = 0)
    (hig : s.ignoreScrollToTop = none) (hl : s.lastScrollTop = some l)
    (hol : o < l) (hot : o ≤ s.targetScrollTop) :
    (processScroll s o).escapedFromLock = true := by
  unfold processScroll
  apply handleScrollDeferred_escapes
  · show ¬(handleScrollEvent (deliverScroll s o)).2.targetScrollTop <
      (handleScrollEvent (deliverScroll s o)).2.scrollTop
    have h1 : (handleScrollEvent (deliverScroll s o)).2.targetScrollTop =
        (deliverScroll s o).targetScrollTop := rfl
    have h2 : (handleScrollEvent (deliverScroll s o)).2.scrollTop =
        (deliverScroll s o).scrollTopVal := rfl
    rw [h1, h2, deliverScroll_targetScrollTop, deliverScroll_scrollTopVal s v o hv]
    exact not_lt.mpr hot
  · show ((handleScrollEvent (deliverScroll s o)).1).resizeDifference = 0
    have h1 : ((handleScrollEvent (deliverScroll s o)).1).resizeDifference =
        (deliverScroll s o).resizeDifference := rfl
    rw [h1, deliverScroll_resizeDifference, hrd]
  · show ¬(handleScrollEvent (deliverScroll s o)).2.ignoreScrollToTop =
      some (handleScrollEvent (deliverScroll s o)).2.scrollTop
    have h1 : (handleScrollEvent (deliverScroll s o)).2.ignoreScrollToTop =
        (deliverScroll s o).ignoreScrollToTop := rfl
    rw [h1, deliverScroll_ignoreScrollToTop, hig]
    simp
  · show (handleScrollEvent (deliverScroll s o)).2.scrollTop <
      (handleScrollEvent (deliverScroll s o)).2.lastScrollTop
    have h2 : (handleScrollEvent (deliverScroll s o)).2.scrollTop =
        (deliverScroll s o).scrollTopVal := rfl
    have h3 : (handleScrollEvent (deliverScroll s o)).2.lastScrollTop =
        (match (deliverScroll s o).ignoreScrollToTop with
         | some i => if i ≠ 0 ∧ (deliverScroll s o).scrollTopVal < i then i
             else (deliverScroll s o).lastScrollTop.getD
               (deliverScroll s o).scrollTopVal
         | none => (deliverScroll s o).lastScrollTop.getD
             (deliverScroll s o).scrollTopVal) := rfl
    rw [h2, h3, deliverScroll_ignoreScrollToTop, hig,
      deliverScroll_lastScrollTop, hl, deliverScroll_scrollTopVal s v o hv]
    simpa using hol

theorem escape_aux (rest : List ℚ) : ∀ (s : State) (prev : ℚ),
    s.viewport.isSome = true → s.resizeDifference = 0 →
    s.ignoreScrollToTop = none → s.lastScrollTop = some prev →
    List.Chain (fun a b => b < a) prev rest →
    (∀ o ∈ rest, o ≤ s.targetScrollTop) →
    ∀ k, 1 ≤ k → k ≤ rest.length →
    ((rest.take k).foldl processScroll s).escapedFromLock = true := by
  induction rest with
  | nil =>
      intro s prev _ _ _ _ _ _ k hk1 hk2
      simp at hk2
      omega
  | cons o rest2 ih =>
      intro s prev hv hrd hig hl hchain hall k hk1 hk2
      obtain ⟨v, hv'⟩ := Option.isSome_iff_exists.mp hv
      have hol : o < prev := (List.chain_cons.mp hchain).1
      have hot : o ≤ s.targetScrollTop := hall o (List.mem_cons_self o rest2)
      match k with
      | 1 =>
          have htake : (o :: rest2).take 1 = [o] := rfl
          rw [htake]
          show (processScroll s o).escapedFromLock = true
          exact processScroll_escapes s v prev o hv' hrd hig hl hol hot
      | (m + 2) =>
          have htake : (o :: rest2).take (m + 2) = o :: rest2.take (m + 1) := rfl
          rw [htake, List.foldl_cons]
          apply ih (processScroll s o) o
          · rw [processScroll_viewport_isSome]; exact hv
          · rw [processScroll_resizeDifference]; exact hrd
          · exact processScroll_ignoreScrollToTop s v o hv' hot
          · exact processScroll_lastScrollTop s v o hv'
          · exact (List.chain_cons.mp hchain).2
          · intro o2 ho2
            rw [processScroll_targetScrollTop]
            exact hall o2 (List.mem_cons_of_mem o ho2)
          · omega
          · simp at hk2 ⊢
            omega

/-- Claim C2 (amended): the original claim with one added condition — each
reported offset must not exceed the target offset, so that the overscroll
correction, which returns before direction classification, does not fire.
For every such sequence of strictly decreasing scroll notifications
delivered while no resize delta is pending, `escapedFromLock` is true after
the second notification and after every subsequent one.  (The original
claim's no-echo proviso is not needed as a hypothesis: offsets at or below
the target keep `ignoreScrollToTop` cleared, so no echo can match from the
second notification on.) -/
theorem escape_on_decreasing_sequence (s : State) (o1 : ℚ) (os : List ℚ)
    (hv : s.viewport.isSome = true) (hrd : s.resizeDifference = 0)
    (hchain : List.Chain (fun a b => b < a) o1 os)
    (hall : ∀ o ∈ o1 :: os, o ≤ s.targetScrollTop) :
    ∀ n, 2 ≤ n → n ≤ (o1 :: os).length →
    (((o1 :: os).take n).foldl processScroll s).escapedFromLock = true := by
  intro n hn2 hnl
  obtain ⟨v, hv'⟩ := Option.isSome_iff_exists.mp hv
  match n, hn2 with
  | (m + 2), _ =>
      have htake : (o1 :: os).take (m + 2) = o1 :: os.take (m + 1) := rfl
      rw [htake, List.foldl_cons]
      apply escape_aux os (processScroll s o1) o1
      · rw [processScroll_viewport_isSome]; exact hv
      · rw [processScroll_resizeDifference]; exact hrd
      · exact processScroll_ignoreScrollToTop s v o1 hv'
          (hall o1 (List.mem_cons_self o1 os))
      · exact processScroll_lastScrollTop s v o1 hv'
      · exact hchain
      · intro o2 ho2
        rw [processScroll_targetScrollTop]
        exact hall o2 (List.mem_cons_of_mem o1 ho2)
      · omega
      · simp at hnl ⊢
        omega

/-- Counterexample to claim C2 as stated: a strictly decreasing pair of
notifications whose offsets sit inside the half-pixel overscroll band above
the target (target 1000, browser maximum 1000.5).  Every hypothesis of the
claim holds — no resize delta is pending before either notification, no
self-written-offset echo matches (no offset is recorded before the first
notification, and the clamp records 1000 while the second notification
reports 1000.25 ≠ 1000), the recorded `lastScrollTop` shows the decrease
1000.5 → 1000.25 is genuinely observable — yet both notifications take the
overscroll-correction path, which returns before direction classification,
and `escapedFromLock` is still false after the second notification. -/
theorem escape_decreasing_overscroll_cex :
    ({ initialState with
        viewport := some ⟨1000, 2201/2, 100⟩ } : State).resizeDifference = 0 ∧
    ({ initialState with
        viewport := some ⟨1000, 2201/2, 100⟩ } : State).ignoreScrollToTop =
      none ∧
    ({ initialState with
        viewport := some ⟨1000, 2201/2, 100⟩ } : State).escapedFromLock = false ∧
    (4001/4 : ℚ) < 2001/2 ∧
    (processScroll { initialState with
        viewport := some ⟨1000, 2201/2, 100⟩ } (2001/2)).resizeDifference = 0 ∧
    (processScroll { initialState with
        viewport := some ⟨1000, 2201/2, 100⟩ } (2001/2)).lastScrollTop =
      some (2001/2) ∧
    (processScroll { initialState with
        viewport := some ⟨1000, 2201/2, 100⟩ } (2001/2)).ignoreScrollToTop =
      some 1000 ∧
    ¬(1000 : ℚ) = 4001/4 ∧
    (processScroll
        (processScroll { initialState with
          viewport := some ⟨1000, 2201/2, 100⟩ } (2001/2))
        (4001/4)).escapedFromLock = false := by
  refine ⟨rfl, rfl, rfl, by norm_num, ?_, ?_, ?_, by norm_num, ?_⟩ <;>
    norm_num [processScroll, deliverScroll, handleScrollEvent,
      handleScrollDeferred, setScrollTop, elementWrite, updateIsAtBottom,
      setEscapedFromLock, State.scrollTopVal, State.targetScrollTop,
      State.scrollDifference, State.isNearBottomB, initialState,
      MIN_SCROLL_AMOUNT_PX, STICK_TO_BOTTOM_OFFSET_PX]

/-- Witness for `escape_on_decreasing_sequence`: offsets 400 then 300 on a
viewport with target 1000, starting from the initial (unescaped) state. -/
theorem escape_on_decreasing_sequence_witness :
    (([400, 300].take 2).foldl processScroll
      { initialState with
        viewport := some ⟨500, 2201/2, 100⟩ }).escapedFromLock = true :=
  escape_on_decreasing_sequence
    { initialState with
      viewport := some ⟨500, 2201/2, 100⟩ } 400 [300] rfl rfl
    (by constructor
        · norm_num
        · exact List.Chain.nil)
    (by intro o ho
        simp only [List.mem_cons, List.not_mem_nil, or_false] at ho
        rcases ho with rfl | rfl <;>
          norm_num [State.targetScrollTop, MIN_SCROLL_AMOUNT_PX])
    2 (by norm_num) (by norm_num)

/-! ## Claim C4 -/

/-- The velocity one spring frame computes:
`(damping * velocity + stiffness * scrollDifference) / mass`. -/
def springVelocity (b : Spring) (s : State) : ℚ :=
  (b.damping * s.velocity + b.stiffness * s.scrollDifference) / b.mass

/-- The step one full-tick spring frame adds to the offset: the new
`accumulated` before its sub-pixel reset, at `tickDelta = 1`. -/
def springAdvance (b : Spring) (s : State) : ℚ :=
  s.accumulated + springVelocity b s

/-- One fixed-cadence spring frame as a state transformer: the stepping
branch of `animateScrollFrame` executed exactly `SIXTY_FPS_INTERVAL_MS` after
the recorded `lastTick`, so that `tickDelta = 1`.
`animateScrollFrame_steps` connects it to the frame function. -/
def cadenceStep (b : Spring) (s : State) : State :=
  { springIntegrate b 1 (s.lastTick.getD 0 + SIXTY_FPS_INTERVAL_MS)
      { s with animation := false } with
    animation := true }

/-- The invariants a spring run maintains in claim C4's regime: viewport
attached, offset within `[0, target]`, non-negative integrator state, lock
still engaged, and a recorded previous tick. -/
def C4Inv (s : State) : Prop :=
  s.viewport.isSome = true ∧ 0 ≤ s.scrollTopVal ∧
  s.scrollTopVal ≤ s.targetScrollTop ∧ 0 ≤ s.velocity ∧ 0 ≤ s.accumulated ∧
  s.isAtBottom = true ∧ s.lastTick.isSome = true

/-- The explicit frame bound for claim C4: at most `⌈2·d₀⌉ + 1` epochs (each
epoch ends in a half-pixel `accumulated` reset or in completion) of at most
`⌈(mass/stiffness)²⌉ + 1` frames each. -/
def framesBound (b : Spring) (s : State) : ℕ :=
  ((⌈(2 * s.scrollDifference : ℚ)⌉).toNat + 1) *
    (⌈((b.mass / b.stiffness) ^ 2 : ℚ)⌉₊ + 1)

theorem scrollDifference_nonneg_of_inv {s : State} (h : C4Inv s) :
    0 ≤ s.scrollDifference :=
  sub_nonneg.mpr h.2.2.1

/-- What an arbitrary core write to `scrollTop` actually stores: the setter
clamp to the target followed by the browser clamp to `[0, scrollHeight -
clientHeight]`. -/
theorem setScrollTop_scrollTopVal (s : State) (x : ℚ) (v : Viewport)
    (hv : s.viewport = some v) :
    (setScrollTop s x).scrollTopVal =
      max 0 (min (min x s.targetScrollTop) (v.scrollHeight - v.clientHeight)) := by
  unfold setScrollTop elementWrite
  rw [hv]
  by_cases h : s.targetScrollTop < x
  · rw [if_pos h]
    unfold State.scrollTopVal
    simp [min_eq_right (le_of_lt h)]
  · rw [if_neg h]
    unfold State.scrollTopVal
    simp [min_eq_left (not_lt.mp h)]

/-- In the non-degenerate regime (`0 ≤ x`, `0 ≤ target`) the browser clamp is
inert and a core write stores `min x target`. -/
theorem setScrollTop_scrollTopVal_clamped (s : State) (x : ℚ) (v : Viewport)
    (hv : s.viewport = some v) (hx : 0 ≤ x) (h0T : 0 ≤ s.targetScrollTop) :
    (setScrollTop s x).scrollTopVal = min x s.targetScrollTop := by
  rw [setScrollTop_scrollTopVal s x v hv]
  have hT : s.targetScrollTop =
      v.scrollHeight - MIN_SCROLL_AMOUNT_PX - v.clientHeight := by
    unfold State.targetScrollTop
    rw [hv]
  have h1 : min x s.targetScrollTop ≤ v.scrollHeight - v.clientHeight := by
    refine le_trans (min_le_right _ _) ?_
    rw [hT]
    unfold MIN_SCROLL_AMOUNT_PX
    linarith
  rw [min_eq_left h1, max_eq_right (le_min hx h0T)]

theorem springIntegrate_velocity (b : Spring) (d t : ℚ) (s : State) :
    (springIntegrate b d t s).velocity = springVelocity b s := by
  unfold springIntegrate springVelocity
  dsimp only
  split <;> simp

theorem springIntegrate_accumulated (b : Spring) (d t : ℚ) (s : State) :
    (springIntegrate b d t s).accumulated =
      (if MIN_SCROLL_AMOUNT_PX ≤ s.accumulated + springVelocity b s * d then 0
       else s.accumulated + springVelocity b s * d) := by
  unfold springIntegrate springVelocity
  dsimp only
  split <;> simp_all

theorem springIntegrate_lastTick (b : Spring) (d t : ℚ) (s : State) :
    (springIntegrate b d t s).lastTick = some t := by
  unfold springIntegrate
  dsimp only
  split <;> simp

theorem springIntegrate_listeners (b : Spring) (d t : ℚ) (s : State) :
    (springIntegrate b d t s).listeners = s.listeners := by
  unfold springIntegrate
  dsimp only
  split <;> simp

theorem springIntegrate_escapedFromLock (b : Spring) (d t : ℚ) (s : State) :
    (springIntegrate b d t s).escapedFromLock = s.escapedFromLock := by
  unfold springIntegrate
  dsimp only
  split <;> simp

theorem springIntegrate_targetScrollTop (b : Spring) (d t : ℚ) (s : State) :
    (springIntegrate b d t s).targetScrollTop = s.targetScrollTop := by
  obtain ⟨vp, lst, ign, rd, an, lt0, bh, vel, acc, esc, bot, ls⟩ := s
  rcases vp with _ | v <;>
    simp [springIntegrate, setScrollTop, elementWrite, springVelocity,
      State.targetScrollTop, State.scrollTopVal, State.scrollDifference] <;>
    split_ifs <;> simp

theorem springIntegrate_viewport_isSome (b : Spring) (d t : ℚ) (s : State) :
    (springIntegrate b d t s).viewport.isSome = s.viewport.isSome := by
  unfold springIntegrate
  dsimp only
  split <;> simp

theorem springIntegrate_scrollTopVal (b : Spring) (d t : ℚ) (s : State)
    (v : Viewport) (hv : s.viewport = some v)
    (h0 : 0 ≤ s.scrollTopVal) (hxT : s.scrollTopVal ≤ s.targetScrollTop)
    (hA : 0 ≤ s.accumulated + springVelocity b s * d) :
    (springIntegrate b d t s).scrollTopVal =
      min (s.scrollTopVal + (s.accumulated + springVelocity b s * d))
        s.targetScrollTop := by
  obtain ⟨vp, lst, ign, rd, an, lt0, bh, vel, acc, esc, bot, ls⟩ := s
  dsimp only at hv
  subst hv
  simp only [springIntegrate, setScrollTop, elementWrite, springVelocity,
    State.targetScrollTop, State.scrollTopVal, State.scrollDifference,
    MIN_SCROLL_AMOUNT_PX, Option.map_some, Option.getD_some] at h0 hxT hA ⊢
  split_ifs <;>
    simp_all only [Option.map_some', Option.getD_some]
  · rw [min_eq_left (by linarith), max_eq_right (by linarith),
      min_eq_right (by linarith)]
  · rw [min_eq_left (by linarith), max_eq_right (by linarith),
      min_eq_left (by linarith)]
  · rw [min_eq_left (by linarith), max_eq_right (by linarith),
      min_eq_right (by linarith)]
  · rw [min_eq_left (by linarith), max_eq_right (by linarith),
      min_eq_left (by linarith)]

theorem springIntegrate_scrollDifference (b : Spring) (d t : ℚ) (s : State)
    (v : Viewport) (hv : s.viewport = some v)
    (h0 : 0 ≤ s.scrollTopVal) (hxT : s.scrollTopVal ≤ s.targetScrollTop)
    (hA : 0 ≤ s.accumulated + springVelocity b s * d) :
    (springIntegrate b d t s).scrollDifference =
      max (s.scrollDifference - (s.accumulated + springVelocity b s * d)) 0 := by
  have hx := springIntegrate_scrollTopVal b d t s v hv h0 hxT hA
  have ht := springIntegrate_targetScrollTop b d t s
  rw [show (springIntegrate b d t s).scrollDifference =
      (springIntegrate b d t s).targetScrollTop -
        (springIntegrate b d t s).scrollTopVal from rfl]
  rw [hx, ht]
  rw [show s.scrollDifference = s.targetScrollTop - s.scrollTopVal from rfl]
  rcases le_total
      (s.scrollTopVal + (s.accumulated + springVelocity b s * d))
      s.targetScrollTop with h | h
  · rw [min_eq_left h, max_eq_left (by linarith)]
    ring
  · rw [min_eq_right h, max_eq_right (by linarith)]
    simp

/-- Frame bridging: when `isAtBottom` holds, the offset is still short of
both targets, and a previous tick is recorded, the `animateScroll` frame at
time `t` neither interrupts nor completes — it performs exactly one spring
integration with `tickDelta = (t - lastTick) / SIXTY_FPS_INTERVAL_MS` and
reschedules. -/
theorem animateScrollFrame_steps_at (opts : Options) (ct : ℚ) (b : Spring)
    (fid : Nat) (s : State) (t lt : ℚ) (hlt : s.lastTick = some lt)
    (hbot : s.isAtBottom = true)
    (hx : s.scrollTopVal < min ct s.targetScrollTop) :
    animateScrollFrame opts ct (.spring b) t fid s =
      .steps { springIntegrate b ((t - lt) / SIXTY_FPS_INTERVAL_MS) t
          { s with animation := false } with
        animation := true } := by
  unfold animateScrollFrame
  set s1 : State := { s with animation := false } with hs1
  have h1 : s1.isAtBottom = true := hbot
  have hx1 : s1.scrollTopVal < min ct s1.targetScrollTop := hx
  rw [if_neg (by rw [h1]; simp)]
  rw [if_neg (not_le.mpr hx1)]
  have hlt1 : s1.lastTick = some lt := hlt
  dsimp only
  rw [hlt1]
  rfl

/-- The fixed-cadence instance of the bridging lemma. -/
theorem animateScrollFrame_steps (opts : Options) (ct : ℚ) (b : Spring)
    (fid : Nat) (s : State) (lt : ℚ) (hlt : s.lastTick = some lt)
    (hbot : s.isAtBottom = true)
    (hx : s.scrollTopVal < min ct s.targetScrollTop) :
    animateScrollFrame opts ct (.spring b) (lt + SIXTY_FPS_INTERVAL_MS) fid s =
      .steps (cadenceStep b s) := by
  rw [animateScrollFrame_steps_at opts ct b fid s (lt + SIXTY_FPS_INTERVAL_MS)
    lt hlt hbot hx]
  unfold cadenceStep
  rw [hlt]
  have hdelta : (lt + SIXTY_FPS_INTERVAL_MS - lt) / SIXTY_FPS_INTERVAL_MS = 1 := by
    rw [add_sub_cancel_left]
    norm_num [SIXTY_FPS_INTERVAL_MS]
  rw [hdelta]
  rfl

/-- All the facts one fixed-cadence frame provides under the C4 invariants:
invariant preservation, the exact new difference, the exact new accumulator,
preservation of target and listeners, and the movement lower bounds. -/
theorem cadenceStep_core (b : Spring) (s : State)
    (hδ : 0 ≤ b.damping) (hσ : 0 < b.stiffness) (hμ : 0 < b.mass)
    (hInv : C4Inv s) :
    C4Inv (cadenceStep b s) ∧
    (cadenceStep b s).scrollDifference =
      max (s.scrollDifference - springAdvance b s) 0 ∧
    (cadenceStep b s).accumulated =
      (if MIN_SCROLL_AMOUNT_PX ≤ springAdvance b s then 0
       else springAdvance b s) ∧
    (cadenceStep b s).targetScrollTop = s.targetScrollTop ∧
    (cadenceStep b s).listeners = s.listeners ∧
    b.stiffness / b.mass * s.scrollDifference ≤ springAdvance b s ∧
    s.accumulated ≤ springAdvance b s := by
  obtain ⟨hvs, h0, hxT, hvel, hacc, hbot, hlt⟩ := hInv
  obtain ⟨v, hv⟩ := Option.isSome_iff_exists.mp hvs
  have hd0 : 0 ≤ s.scrollDifference := sub_nonneg.mpr hxT
  have hvel0 : 0 ≤ springVelocity b s := by
    unfold springVelocity
    apply div_nonneg _ hμ.le
    have h1 : 0 ≤ b.damping * s.velocity := mul_nonneg hδ hvel
    have h2 : 0 ≤ b.stiffness * s.scrollDifference := mul_nonneg hσ.le hd0
    linarith
  have hkd : b.stiffness / b.mass * s.scrollDifference ≤ springVelocity b s := by
    unfold springVelocity
    rw [div_mul_eq_mul_div]
    refine (div_le_div_right hμ).mpr ?_
    have h1 : 0 ≤ b.damping * s.velocity := mul_nonneg hδ hvel
    linarith
  have hAv : springVelocity b s ≤ springAdvance b s := by
    unfold springAdvance
    linarith
  have hAacc : s.accumulated ≤ springAdvance b s := by
    unfold springAdvance
    linarith
  have hA0 : 0 ≤ springAdvance b s := le_trans hvel0 hAv
  have hx : (cadenceStep b s).scrollTopVal =
      min (s.scrollTopVal + springAdvance b s) s.targetScrollTop := by
    have h := springIntegrate_scrollTopVal b 1
      (s.lastTick.getD 0 + SIXTY_FPS_INTERVAL_MS)
      { s with animation := false } v hv h0 hxT (by rw [mul_one]; exact hA0)
    rw [mul_one] at h
    exact h
  have hdiff : (cadenceStep b s).scrollDifference =
      max (s.scrollDifference - springAdvance b s) 0 := by
    have h := springIntegrate_scrollDifference b 1
      (s.lastTick.getD 0 + SIXTY_FPS_INTERVAL_MS)
      { s with animation := false } v hv h0 hxT (by rw [mul_one]; exact hA0)
    rw [mul_one] at h
    exact h
  have haccu : (cadenceStep b s).accumulated =
      (if MIN_SCROLL_AMOUNT_PX ≤ springAdvance b s then 0
       else springAdvance b s) := by
    have h := springIntegrate_accumulated b 1
      (s.lastTick.getD 0 + SIXTY_FPS_INTERVAL_MS) { s with animation := false }
    rw [mul_one] at h
    exact h
  have htarget : (cadenceStep b s).targetScrollTop = s.targetScrollTop :=
    springIntegrate_targetScrollTop b 1
      (s.lastTick.getD 0 + SIXTY_FPS_INTERVAL_MS) { s with animation := false }
  have hlist : (cadenceStep b s).listeners = s.listeners :=
    springIntegrate_listeners b 1
      (s.lastTick.getD 0 + SIXTY_FPS_INTERVAL_MS) { s with animation := false }
  refine ⟨⟨?_, ?_, ?_, ?_, ?_, ?_, ?_⟩, hdiff, haccu, htarget, hlist,
    le_trans hkd hAv, hAacc⟩
  · rw [show (cadenceStep b s).viewport.isSome =
        ({ s with animation := false } : State).viewport.isSome from
      springIntegrate_viewport_isSome b 1
        (s.lastTick.getD 0 + SIXTY_FPS_INTERVAL_MS) { s with animation := false }]
    exact hvs
  · rw [hx]
    exact le_min (by linarith) (le_trans h0 hxT)
  · rw [hx, htarget]
    exact min_le_right _ _
  · rw [show (cadenceStep b s).velocity = springVelocity b s from
      springIntegrate_velocity b 1
        (s.lastTick.getD 0 + SIXTY_FPS_INTERVAL_MS) { s with animation := false }]
    exact hvel0
  · rw [haccu]
    split
    · exact le_refl 0
    · exact hA0
  · rw [show (cadenceStep b s).isAtBottom = s.isAtBottom from
      springIntegrate_isAtBottom b 1
        (s.lastTick.getD 0 + SIXTY_FPS_INTERVAL_MS) { s with animation := false }]
    exact hbot
  · rw [show (cadenceStep b s).lastTick =
        some (s.lastTick.getD 0 + SIXTY_FPS_INTERVAL_MS) from
      springIntegrate_lastTick b 1
        (s.lastTick.getD 0 + SIXTY_FPS_INTERVAL_MS) { s with animation := false }]
    rfl

/-- `(1-k)^n (1 + nk) ≤ 1` for `0 < k < 1` — the Bernoulli-style bound
driving the geometric-decay frame count. -/
theorem one_sub_pow_mul_le (k : ℚ) (hk0 : 0 < k) (hk1 : k < 1) (n : ℕ) :
    (1 - k) ^ n * (1 + (n : ℚ) * k) ≤ 1 := by
  induction n with
  | zero => simp
  | succ m ih =>
      have h1 : (0 : ℚ) ≤ 1 - k := by linarith
      have hpow : (0 : ℚ) ≤ (1 - k) ^ m := pow_nonneg h1 m
      have hexp : (1 - k) ^ (m + 1) * (1 + ((m : ℚ) + 1) * k) =
          (1 - k) ^ m * ((1 + (m : ℚ) * k) - ((m : ℚ) + 1) * k ^ 2) := by
        rw [pow_succ]
        ring
      have hmk : (0 : ℚ) ≤ ((m : ℚ) + 1) * k ^ 2 := by positivity
      have hcast : ((m + 1 : ℕ) : ℚ) = (m : ℚ) + 1 := by push_cast; ring
      rw [hcast]
      calc (1 - k) ^ (m + 1) * (1 + ((m : ℚ) + 1) * k)
          = (1 - k) ^ m * ((1 + (m : ℚ) * k) - ((m : ℚ) + 1) * k ^ 2) := by
            push_cast at hexp ⊢
            linarith [hexp]
        _ ≤ (1 - k) ^ m * (1 + (m : ℚ) * k) := by nlinarith
        _ ≤ 1 := ih

/-- When `J·k² ≥ 1`, the decay factor satisfies `(1-k)^J < k`. -/
theorem one_sub_pow_lt (k : ℚ) (hk0 : 0 < k) (hk1 : k < 1) (J : ℕ)
    (hJ : 1 ≤ (J : ℚ) * k ^ 2) : (1 - k) ^ J < k := by
  have h1 : (1 - k) ^ J * (1 + (J : ℚ) * k) ≤ 1 := one_sub_pow_mul_le k hk0 hk1 J
  have h3 : (0 : ℚ) < 1 + (J : ℚ) * k := by positivity
  have h2 : 1 < k * (1 + (J : ℚ) * k) := by nlinarith
  have h4 : (1 - k) ^ J * (1 + (J : ℚ) * k) < k * (1 + (J : ℚ) * k) :=
    lt_of_le_of_lt h1 h2
  exact lt_of_mul_lt_mul_right h4 h3.le

/-- Within `⌈(mass/stiffness)²⌉ + 1` fixed-cadence frames, a spring run with
positive remaining difference either completes (difference reaches zero) or
performs a half-pixel accumulator reset that cuts the remaining difference by
at least `1/2`. -/
theorem cadence_epoch (b : Spring) (s : State)
    (hδ : 0 ≤ b.damping) (hσ : 0 < b.stiffness) (hμ : 0 < b.mass)
    (hInv : C4Inv s) (hd : 0 < s.scrollDifference) :
    ∃ j, j ≤ ⌈((b.mass / b.stiffness) ^ 2 : ℚ)⌉₊ + 1 ∧
      C4Inv ((cadenceStep b)^[j] s) ∧
      (((cadenceStep b)^[j] s).scrollDifference = 0 ∨
        ((cadenceStep b)^[j] s).scrollDifference ≤ s.scrollDifference - 1/2) := by
  have hk0 : 0 < b.stiffness / b.mass := div_pos hσ hμ
  by_cases hk1 : 1 ≤ b.stiffness / b.mass
  · obtain ⟨hInv1, hdiff1, _, _, _, hmove, _⟩ := cadenceStep_core b s hδ hσ hμ hInv
    refine ⟨1, by omega, ?_, Or.inl ?_⟩
    · simpa [Function.iterate_one] using hInv1
    · rw [Function.iterate_one, hdiff1]
      have hmove2 : s.scrollDifference ≤ springAdvance b s := by
        nlinarith [hd.le]
      rw [max_eq_right (by linarith)]
  · push_neg at hk1
    have hJk : 1 ≤ (⌈((b.mass / b.stiffness) ^ 2 : ℚ)⌉₊ : ℚ) *
        (b.stiffness / b.mass) ^ 2 := by
      have hceil : ((b.mass / b.stiffness) ^ 2 : ℚ) ≤
          (⌈((b.mass / b.stiffness) ^ 2 : ℚ)⌉₊ : ℚ) := Nat.le_ceil _
      have hkk : ((b.stiffness / b.mass) ^ 2 : ℚ) *
          ((b.mass / b.stiffness) ^ 2 : ℚ) = 1 := by
        field_simp
      nlinarith [sq_nonneg (b.stiffness / b.mass), hk0]
    have hpow : (1 - b.stiffness / b.mass) ^
        ⌈((b.mass / b.stiffness) ^ 2 : ℚ)⌉₊ < b.stiffness / b.mass :=
      one_sub_pow_lt _ hk0 hk1 _ hJk
    have aux : ∀ j : ℕ,
        (∃ i, i ≤ j ∧ C4Inv ((cadenceStep b)^[i] s) ∧
          (((cadenceStep b)^[i] s).scrollDifference = 0 ∨
            ((cadenceStep b)^[i] s).scrollDifference ≤
              s.scrollDifference - 1/2)) ∨
        (C4Inv ((cadenceStep b)^[j] s) ∧
          ((cadenceStep b)^[j] s).scrollDifference ≤
            (1 - b.stiffness / b.mass) ^ j * s.scrollDifference ∧
          (1 ≤ j → b.stiffness / b.mass * s.scrollDifference ≤
            ((cadenceStep b)^[j] s).accumulated)) := by
      intro j
      induction j with
      | zero =>
          right
          refine ⟨by simpa using hInv, by simp, fun h => absurd h (by omega)⟩
      | succ m ih =>
          rcases ih with ⟨i, hi, hInvi, hexit⟩ | ⟨hInvm, hdm, ham⟩
          · exact Or.inl ⟨i, Nat.le_succ_of_le hi, hInvi, hexit⟩
          · have hiter : (cadenceStep b)^[m+1] s =
                cadenceStep b ((cadenceStep b)^[m] s) :=
              Function.iterate_succ_apply' (cadenceStep b) m s
            obtain ⟨hInv1, hdiff1, haccu1, _, _, hmove1, hgrow1⟩ :=
              cadenceStep_core b ((cadenceStep b)^[m] s) hδ hσ hμ hInvm
            have hdm0 : 0 ≤ ((cadenceStep b)^[m] s).scrollDifference :=
              scrollDifference_nonneg_of_inv hInvm
            by_cases hz : ((cadenceStep b)^[m] s).scrollDifference = 0
            · exact Or.inl ⟨m, Nat.le_succ m, hInvm, Or.inl hz⟩
            · have hdmp : 0 < ((cadenceStep b)^[m] s).scrollDifference :=
                lt_of_le_of_ne hdm0 (Ne.symm hz)
              have hdm_le : ((cadenceStep b)^[m] s).scrollDifference ≤
                  s.scrollDifference := by
                calc ((cadenceStep b)^[m] s).scrollDifference
                    ≤ (1 - b.stiffness / b.mass) ^ m * s.scrollDifference := hdm
                  _ ≤ 1 * s.scrollDifference := by
                      apply mul_le_mul_of_nonneg_right _ hd.le
                      exact pow_le_one₀ (by linarith) (by linarith)
                  _ = s.scrollDifference := one_mul _
              by_cases hreset : MIN_SCROLL_AMOUNT_PX ≤
                  springAdvance b ((cadenceStep b)^[m] s)
              · left
                refine ⟨m+1, le_refl _, by rw [hiter]; exact hInv1, ?_⟩
                rw [hiter, hdiff1]
                have hM : MIN_SCROLL_AMOUNT_PX = 1/2 := rfl
                rw [hM] at hreset
                rcases le_or_lt
                    (((cadenceStep b)^[m] s).scrollDifference -
                      springAdvance b ((cadenceStep b)^[m] s)) 0 with hc | hc
                · exact Or.inl (max_eq_right hc)
                · refine Or.inr ?_
                  rw [max_eq_left hc.le]
                  linarith
              · right
                push_neg at hreset
                refine ⟨by rw [hiter]; exact hInv1, ?_, ?_⟩
                · rw [hiter, hdiff1]
                  have hfac : (1 - b.stiffness / b.mass) *
                      ((cadenceStep b)^[m] s).scrollDifference =
                      ((cadenceStep b)^[m] s).scrollDifference -
                        b.stiffness / b.mass *
                          ((cadenceStep b)^[m] s).scrollDifference := by ring
                  have h1 : ((cadenceStep b)^[m] s).scrollDifference -
                      springAdvance b ((cadenceStep b)^[m] s) ≤
                      (1 - b.stiffness / b.mass) *
                        ((cadenceStep b)^[m] s).scrollDifference := by
                    rw [hfac]
                    linarith
                  calc max (((cadenceStep b)^[m] s).scrollDifference -
                        springAdvance b ((cadenceStep b)^[m] s)) 0
                      ≤ max ((1 - b.stiffness / b.mass) *
                          ((cadenceStep b)^[m] s).scrollDifference) 0 :=
                        max_le_max h1 (le_refl 0)
                    _ = (1 - b.stiffness / b.mass) *
                          ((cadenceStep b)^[m] s).scrollDifference :=
                        max_eq_left (mul_nonneg (by linarith) hdm0)
                    _ ≤ (1 - b.stiffness / b.mass) *
                          ((1 - b.stiffness / b.mass) ^ m * s.scrollDifference) :=
                        mul_le_mul_of_nonneg_left hdm (by linarith)
                    _ = (1 - b.stiffness / b.mass) ^ (m + 1) *
                          s.scrollDifference := by ring
                · intro _
                  rw [hiter, haccu1, if_neg (not_le.mpr hreset)]
                  rcases Nat.eq_zero_or_pos m with hm0 | hmpos
                  · subst hm0
                    simpa using hmove1
                  · exact le_trans (ham hmpos) hgrow1
    rcases aux ⌈((b.mass / b.stiffness) ^ 2 : ℚ)⌉₊ with
      ⟨i, hi, hInvi, hexit⟩ | ⟨hInvJ, hdJ, haJ⟩
    · exact ⟨i, by omega, hInvi, hexit⟩
    · by_cases hzJ :
          ((cadenceStep b)^[⌈((b.mass / b.stiffness) ^ 2 : ℚ)⌉₊] s).scrollDifference = 0
      · exact ⟨⌈((b.mass / b.stiffness) ^ 2 : ℚ)⌉₊, by omega, hInvJ, Or.inl hzJ⟩
      · have hJ1 : 1 ≤ ⌈((b.mass / b.stiffness) ^ 2 : ℚ)⌉₊ := by
          have hpos : (0:ℚ) < ((b.mass / b.stiffness) ^ 2 : ℚ) := by positivity
          have := Nat.ceil_pos.mpr hpos
          omega
        have haJ' := haJ hJ1
        obtain ⟨hInv1, hdiff1, _, _, _, hmove1, hgrow1⟩ :=
          cadenceStep_core b
            ((cadenceStep b)^[⌈((b.mass / b.stiffness) ^ 2 : ℚ)⌉₊] s) hδ hσ hμ hInvJ
        refine ⟨⌈((b.mass / b.stiffness) ^ 2 : ℚ)⌉₊ + 1, le_refl _, ?_, Or.inl ?_⟩
        · rw [Function.iterate_succ_apply']
          exact hInv1
        · rw [Function.iterate_succ_apply', hdiff1]
          apply max_eq_right
          have h1 : (1 - b.stiffness / b.mass) ^
              ⌈((b.mass / b.stiffness) ^ 2 : ℚ)⌉₊ * s.scrollDifference <
              b.stiffness / b.mass * s.scrollDifference :=
            mul_lt_mul_of_pos_right hpow hd
          linarith

/-- Strong induction on `⌈2·d⌉`: the full fixed-cadence run reaches
`scrollDifference = 0` within `(c+1)·(J+1)` frames. -/
theorem cadence_outer (b : Spring)
    (hδ : 0 ≤ b.damping) (hσ : 0 < b.stiffness) (hμ : 0 < b.mass) :
    ∀ c : ℕ, ∀ s : State, C4Inv s →
    (⌈(2 * s.scrollDifference : ℚ)⌉).toNat ≤ c →
    ∃ n, n ≤ (c + 1) * (⌈((b.mass / b.stiffness) ^ 2 : ℚ)⌉₊ + 1) ∧
      C4Inv ((cadenceStep b)^[n] s) ∧
      ((cadenceStep b)^[n] s).scrollDifference = 0 := by
  intro c
  induction c with
  | zero =>
      intro s hInv hc
      have hd0 : 0 ≤ s.scrollDifference := scrollDifference_nonneg_of_inv hInv
      have h1 : (⌈(2 * s.scrollDifference : ℚ)⌉) ≤ 0 :=
        Int.toNat_eq_zero.mp (Nat.le_zero.mp hc)
      have h2 : (2 * s.scrollDifference : ℚ) ≤ 0 := by
        have := Int.ceil_le.mp h1
        simpa using this
      refine ⟨0, Nat.zero_le _, by simpa using hInv, ?_⟩
      simp only [Function.iterate_zero_apply]
      linarith
  | succ c ih =>
      intro s hInv hc
      by_cases hz : s.scrollDifference = 0
      · exact ⟨0, Nat.zero_le _, by simpa using hInv, by simpa using hz⟩
      · have hd0 : 0 ≤ s.scrollDifference := scrollDifference_nonneg_of_inv hInv
        have hdp : 0 < s.scrollDifference := lt_of_le_of_ne hd0 (Ne.symm hz)
        obtain ⟨j, hj, hInvj, hexit⟩ := cadence_epoch b s hδ hσ hμ hInv hdp
        rcases hexit with hdone | hdrop
        · refine ⟨j, ?_, hInvj, hdone⟩
          calc j ≤ ⌈((b.mass / b.stiffness) ^ 2 : ℚ)⌉₊ + 1 := hj
            _ ≤ (c + 1 + 1) * (⌈((b.mass / b.stiffness) ^ 2 : ℚ)⌉₊ + 1) :=
              Nat.le_mul_of_pos_left _ (by omega)
        · have hdj0 : 0 ≤ ((cadenceStep b)^[j] s).scrollDifference :=
            scrollDifference_nonneg_of_inv hInvj
          have hmeas :
              (⌈(2 * ((cadenceStep b)^[j] s).scrollDifference : ℚ)⌉).toNat ≤ c := by
            have h1 : (2 * ((cadenceStep b)^[j] s).scrollDifference : ℚ) ≤
                2 * s.scrollDifference - 1 := by linarith
            have h2 : ⌈(2 * ((cadenceStep b)^[j] s).scrollDifference : ℚ)⌉ ≤
                ⌈(2 * s.scrollDifference - 1 : ℚ)⌉ := Int.ceil_le_ceil h1
            have h3 : ⌈(2 * s.scrollDifference - 1 : ℚ)⌉ =
                ⌈(2 * s.scrollDifference : ℚ)⌉ - 1 :=
              Int.ceil_sub_one (2 * s.scrollDifference)
            have h4 : 0 < ⌈(2 * s.scrollDifference : ℚ)⌉ :=
              Int.ceil_pos.mpr (by linarith)
            omega
          obtain ⟨m, hm, hInvm, hzm⟩ := ih ((cadenceStep b)^[j] s) hInvj hmeas
          refine ⟨m + j, ?_, ?_, ?_⟩
          · calc m + j ≤
                (c + 1) * (⌈((b.mass / b.stiffness) ^ 2 : ℚ)⌉₊ + 1) +
                  (⌈((b.mass / b.stiffness) ^ 2 : ℚ)⌉₊ + 1) := add_le_add hm hj
              _ = (c + 1 + 1) * (⌈((b.mass / b.stiffness) ^ 2 : ℚ)⌉₊ + 1) := by
                  ring
          · rw [Function.iterate_add_apply]
            exact hInvm
          · rw [Function.iterate_add_apply]
            exact hzm

@[simp] theorem animation_update_scrollDifference (s : State) (a : Bool) :
    ({ s with animation := a } : State).scrollDifference = s.scrollDifference := rfl

@[simp] theorem animation_update_scrollTopVal (s : State) (a : Bool) :
    ({ s with animation := a } : State).scrollTopVal = s.scrollTopVal := rfl

@[simp] theorem animation_update_targetScrollTop (s : State) (a : Bool) :
    ({ s with animation := a } : State).targetScrollTop = s.targetScrollTop := rfl

@[simp] theorem animation_update_springVelocity (b : Spring) (s : State) (a : Bool) :
    springVelocity b { s with animation := a } = springVelocity b s := rfl

/-- Along the fixed-cadence orbit the invariants hold and the target and the
listener set never change. -/
theorem cadence_orbit (b : Spring) (s : State)
    (hδ : 0 ≤ b.damping) (hσ : 0 < b.stiffness) (hμ : 0 < b.mass)
    (hInv : C4Inv s) : ∀ n : ℕ,
    C4Inv ((cadenceStep b)^[n] s) ∧
    ((cadenceStep b)^[n] s).targetScrollTop = s.targetScrollTop ∧
    ((cadenceStep b)^[n] s).listeners = s.listeners := by
  intro n
  induction n with
  | zero => exact ⟨by simpa using hInv, by simp, by simp⟩
  | succ m ih =>
      obtain ⟨hInvm, htm, hlm⟩ := ih
      obtain ⟨hInv1, _, _, ht1, hl1, _, _⟩ :=
        cadenceStep_core b ((cadenceStep b)^[m] s) hδ hσ hμ hInvm
      rw [Function.iterate_succ_apply']
      exact ⟨hInv1, ht1.trans htm, hl1.trans hlm⟩

/-- When the offset has exactly reached the (fixed) target, the next frame
completes the run: it resolves every waiter with `isAtBottom = true`, clears
the listener set and queues no follow-up. -/
theorem animateScrollFrame_completes_at_target (opts : Options) (b : Merged)
    (t : ℚ) (fid : Nat) (s : State) (ct : ℚ)
    (hbot : s.isAtBottom = true)
    (hct : ct = s.targetScrollTop)
    (hx : s.scrollDifference = 0) :
    animateScrollFrame opts ct b t fid s =
      .completes
        { s with
          animation := false, accumulated := 0, behavior := none,
          listeners := [] }
        s.listeners true none := by
  subst hct
  unfold animateScrollFrame
  set s1 : State := { s with animation := false } with hs1
  have h1 : s1.isAtBottom = true := hbot
  have heq : s1.targetScrollTop = s.targetScrollTop := rfl
  have hxeq : s1.scrollTopVal = s1.targetScrollTop := by
    have h2 : s.targetScrollTop - s.scrollTopVal = 0 := hx
    have h3 : s.scrollTopVal = s.targetScrollTop := by linarith
    exact h3
  rw [if_neg (by rw [h1]; simp)]
  rw [if_pos (by rw [heq, min_self, ← heq, ← hxeq])]
  rw [if_neg (by rw [hxeq]; exact lt_irrefl _)]
  simp [scrollComplete, hs1, h1, hbot]

/-- Claim C4 (amended): with a viewport attached, a fixed target, the lock
engaged, and a spring behavior with `damping ∈ [0,1]`, `stiffness > 0`,
`mass > 0`:
(a) every frame with positive elapsed time since the recorded tick strictly
decreases `targetScrollTop − scrollTop`, and the written offset never
exceeds the target (no overshoot, no oscillation); and
(b) at the fixed 60fps cadence the run reaches the target within the
explicit bound `framesBound` — every earlier frame genuinely steps, and at
the first frame with `scrollTop ≥ targetScrollTop` the frame function
completes the run, resolving exactly the registered waiters with
`isAtBottom = true` and clearing the listener set. -/
theorem spring_convergence (opts : Options) (fid : Nat) (b : Spring)
    (s : State)
    (hδ0 : 0 ≤ b.damping) (hδ1 : b.damping ≤ 1)
    (hσ : 0 < b.stiffness) (hμ : 0 < b.mass) (hInv : C4Inv s) :
    (∀ t lt, s.lastTick = some lt → lt < t → 0 < s.scrollDifference →
      ∃ s1, animateScrollFrame opts s.targetScrollTop (Merged.spring b) t fid s =
          FrameOut.steps s1 ∧
        s1.scrollDifference < s.scrollDifference ∧
        s1.scrollTopVal ≤ s.targetScrollTop) ∧
    (∃ n, n ≤ framesBound b s ∧
      (∀ i, i < n →
        0 < ((cadenceStep b)^[i] s).scrollDifference ∧
        animateScrollFrame opts s.targetScrollTop (Merged.spring b)
          (((cadenceStep b)^[i] s).lastTick.getD 0 + SIXTY_FPS_INTERVAL_MS) fid
          ((cadenceStep b)^[i] s) =
          FrameOut.steps ((cadenceStep b)^[i+1] s)) ∧
      ((cadenceStep b)^[n] s).scrollDifference = 0 ∧
      (∀ t2 fid2,
        animateScrollFrame opts s.targetScrollTop (Merged.spring b) t2 fid2
          ((cadenceStep b)^[n] s) =
          FrameOut.completes
            { ((cadenceStep b)^[n] s) with
              animation := false, accumulated := 0, behavior := none,
              listeners := [] }
            s.listeners true none)) := by
  obtain ⟨v, hv⟩ := Option.isSome_iff_exists.mp hInv.1
  constructor
  · intro t lt hltm httlt hd
    have hxmin : s.scrollTopVal < min s.targetScrollTop s.targetScrollTop := by
      rw [min_self]
      have hd2 : 0 < s.targetScrollTop - s.scrollTopVal := hd
      linarith
    have hI : (0:ℚ) < SIXTY_FPS_INTERVAL_MS := by norm_num [SIXTY_FPS_INTERVAL_MS]
    have hΔ : 0 < (t - lt) / SIXTY_FPS_INTERVAL_MS :=
      div_pos (by linarith) hI
    have hvelpos : 0 < springVelocity b s := by
      unfold springVelocity
      apply div_pos _ hμ
      have hb1 : 0 ≤ b.damping * s.velocity := mul_nonneg hδ0 hInv.2.2.2.1
      have hb2 : 0 < b.stiffness * s.scrollDifference := mul_pos hσ hd
      linarith
    have hAp : 0 < s.accumulated +
        springVelocity b s * ((t - lt) / SIXTY_FPS_INTERVAL_MS) :=
      add_pos_of_nonneg_of_pos hInv.2.2.2.2.1 (mul_pos hvelpos hΔ)
    have hSD := springIntegrate_scrollDifference b
      ((t - lt) / SIXTY_FPS_INTERVAL_MS) t { s with animation := false }
      v hv hInv.2.1 hInv.2.2.1 hAp.le
    have hSV := springIntegrate_scrollTopVal b
      ((t - lt) / SIXTY_FPS_INTERVAL_MS) t { s with animation := false }
      v hv hInv.2.1 hInv.2.2.1 hAp.le
    dsimp only at hSD hSV
    simp only [animation_update_scrollDifference, animation_update_scrollTopVal,
      animation_update_targetScrollTop, animation_update_springVelocity]
      at hSD hSV
    refine ⟨_, animateScrollFrame_steps_at opts s.targetScrollTop b fid s t lt
      hltm hInv.2.2.2.2.2.1 hxmin, ?_, ?_⟩
    · rw [animation_update_scrollDifference, hSD]
      exact max_lt (by linarith) hd
    · rw [animation_update_scrollTopVal, hSV]
      exact min_le_right _ _
  · obtain ⟨n0, hn0, hInvn, hzn⟩ := cadence_outer b hδ0 hσ hμ
      ((⌈(2 * s.scrollDifference : ℚ)⌉).toNat) s hInv (le_refl _)
    have hex : ∃ n, ((cadenceStep b)^[n] s).scrollDifference = 0 := ⟨n0, hzn⟩
    refine ⟨Nat.find hex, ?_, ?_, Nat.find_spec hex, ?_⟩
    · exact le_trans (Nat.find_min' hex hzn) hn0
    · intro i hi
      have horb := cadence_orbit b s hδ0 hσ hμ hInv i
      have hdi : ¬((cadenceStep b)^[i] s).scrollDifference = 0 :=
        Nat.find_min hex hi
      have hdi0 : 0 ≤ ((cadenceStep b)^[i] s).scrollDifference :=
        scrollDifference_nonneg_of_inv horb.1
      have hdip : 0 < ((cadenceStep b)^[i] s).scrollDifference :=
        lt_of_le_of_ne hdi0 (Ne.symm hdi)
      refine ⟨hdip, ?_⟩
      obtain ⟨lti, hlti⟩ := Option.isSome_iff_exists.mp horb.1.2.2.2.2.2.2
      have hxlt : ((cadenceStep b)^[i] s).scrollTopVal <
          min s.targetScrollTop ((cadenceStep b)^[i] s).targetScrollTop := by
        rw [horb.2.1, min_self]
        have hd2 : 0 < ((cadenceStep b)^[i] s).targetScrollTop -
            ((cadenceStep b)^[i] s).scrollTopVal := hdip
        rw [horb.2.1] at hd2
        linarith
      have hstep := animateScrollFrame_steps opts s.targetScrollTop b fid
        ((cadenceStep b)^[i] s) lti hlti horb.1.2.2.2.2.2.1 hxlt
      rw [hlti]
      simp only [Option.getD_some]
      rw [hstep, Function.iterate_succ_apply']
    · intro t2 fid2
      have horb := cadence_orbit b s hδ0 hσ hμ hInv (Nat.find hex)
      have hcomp := animateScrollFrame_completes_at_target opts
        (Merged.spring b) t2 fid2 ((cadenceStep b)^[Nat.find hex] s)
        s.targetScrollTop horb.1.2.2.2.2.2.1 (horb.2.1).symm
        (Nat.find_spec hex)
      rw [horb.2.2] at hcomp
      exact hcomp

/-- Counterexample to claim C4 as stated: the very first frame of a fresh
run has no recorded `lastTick`, so `tickDelta = (t - (lastTick ?? t)) /
SIXTY_FPS_INTERVAL_MS = 0` and the frame moves nothing — the remaining
difference stays at `10` even though the run is active and the difference is
positive, refuting "each animation frame strictly decreases
targetScrollTop − scrollTop". -/
theorem first_frame_no_progress_cex :
    ({ initialState with
        viewport := some ⟨0, 21/2, 0⟩ } : State).scrollDifference = 10 ∧
    ({ initialState with
        viewport := some ⟨0, 21/2, 0⟩ } : State).lastTick = none ∧
    (animateScrollFrame Options.empty 10
        (Merged.spring DEFAULT_SPRING_BEHAVIOR) 5 0
        { initialState with
          viewport := some ⟨0, 21/2, 0⟩ }).isCompletes = false ∧
    ((animateScrollFrame Options.empty 10
        (Merged.spring DEFAULT_SPRING_BEHAVIOR) 5 0
        { initialState with
          viewport := some ⟨0, 21/2, 0⟩ }).state).scrollDifference = 10 := by
  refine ⟨?_, rfl, ?_, ?_⟩ <;>
    norm_num [animateScrollFrame, springIntegrate, setScrollTop, elementWrite,
      updateIsAtBottom, scrollComplete, State.scrollDifference,
      State.targetScrollTop, State.scrollTopVal, State.isNearBottomB,
      initialState, Options.empty, MIN_SCROLL_AMOUNT_PX,
      SIXTY_FPS_INTERVAL_MS, DEFAULT_SPRING_BEHAVIOR, FrameOut.isCompletes,
      FrameOut.state]

/-- Witness for `spring_convergence`: the default spring on a viewport with
target 10, starting at offset 0 with a recorded tick. -/
theorem spring_convergence_witness :
    (∀ t lt,
      ({ initialState with
          viewport := some ⟨0, 21/2, 0⟩,
          lastTick := some 0 } : State).lastTick = some lt → lt < t →
      0 < ({ initialState with
          viewport := some ⟨0, 21/2, 0⟩,
          lastTick := some 0 } : State).scrollDifference →
      ∃ s1, animateScrollFrame Options.empty
          ({ initialState with
            viewport := some ⟨0, 21/2, 0⟩,
            lastTick := some 0 } : State).targetScrollTop
          (Merged.spring DEFAULT_SPRING_BEHAVIOR) t 0
          { initialState with
            viewport := some ⟨0, 21/2, 0⟩,
            lastTick := some 0 } = FrameOut.steps s1 ∧
        s1.scrollDifference <
          ({ initialState with
            viewport := some ⟨0, 21/2, 0⟩,
            lastTick := some 0 } : State).scrollDifference ∧
        s1.scrollTopVal ≤
          ({ initialState with
            viewport := some ⟨0, 21/2, 0⟩,
            lastTick := some 0 } : State).targetScrollTop) ∧
    (∃ n, n ≤ framesBound DEFAULT_SPRING_BEHAVIOR
        { initialState with
          viewport := some ⟨0, 21/2, 0⟩,
          lastTick := some 0 } ∧
      (∀ i, i < n →
        0 < ((cadenceStep DEFAULT_SPRING_BEHAVIOR)^[i]
            { initialState with
              viewport := some ⟨0, 21/2, 0⟩,
              lastTick := some 0 }).scrollDifference ∧
        animateScrollFrame Options.empty
          ({ initialState with
            viewport := some ⟨0, 21/2, 0⟩,
            lastTick := some 0 } : State).targetScrollTop
          (Merged.spring DEFAULT_SPRING_BEHAVIOR)
          (((cadenceStep DEFAULT_SPRING_BEHAVIOR)^[i]
              { initialState with
                viewport := some ⟨0, 21/2, 0⟩,
                lastTick := some 0 }).lastTick.getD 0 +
            SIXTY_FPS_INTERVAL_MS) 0
          ((cadenceStep DEFAULT_SPRING_BEHAVIOR)^[i]
            { initialState with
              viewport := some ⟨0, 21/2, 0⟩,
              lastTick := some 0 }) =
          FrameOut.steps ((cadenceStep DEFAULT_SPRING_BEHAVIOR)^[i+1]
            { initialState with
              viewport := some ⟨0, 21/2, 0⟩,
              lastTick := some 0 })) ∧
      ((cadenceStep DEFAULT_SPRING_BEHAVIOR)^[n]
        { initialState with
          viewport := some ⟨0, 21/2, 0⟩,
          lastTick := some 0 }).scrollDifference = 0 ∧
      (∀ t2 fid2,
        animateScrollFrame Options.empty
          ({ initialState with
            viewport := some ⟨0, 21/2, 0⟩,
            lastTick := some 0 } : State).targetScrollTop
          (Merged.spring DEFAULT_SPRING_BEHAVIOR) t2 fid2
          ((cadenceStep DEFAULT_SPRING_BEHAVIOR)^[n]
            { initialState with
              viewport := some ⟨0, 21/2, 0⟩,
              lastTick := some 0 }) =
          FrameOut.completes
            { ((cadenceStep DEFAULT_SPRING_BEHAVIOR)^[n]
                { initialState with
                  viewport := some ⟨0, 21/2, 0⟩,
                  lastTick := some 0 }) with
              animation := false, accumulated := 0, behavior := none,
              listeners := [] }
            ({ initialState with
              viewport := some ⟨0, 21/2, 0⟩,
              lastTick := some 0 } : State).listeners true none)) :=
  spring_convergence Options.empty 0 DEFAULT_SPRING_BEHAVIOR
    { initialState with
      viewport := some ⟨0, 21/2, 0⟩,
      lastTick := some 0 }
    (by norm_num [DEFAULT_SPRING_BEHAVIOR])
    (by norm_num [DEFAULT_SPRING_BEHAVIOR])
    (by norm_num [DEFAULT_SPRING_BEHAVIOR])
    (by norm_num [DEFAULT_SPRING_BEHAVIOR])
    (by refine ⟨rfl, ?_, ?_, ?_, ?_, rfl, rfl⟩ <;>
      norm_num [State.scrollTopVal, State.targetScrollTop, initialState,
        MIN_SCROLL_AMOUNT_PX, C4Inv])

end StickToBottom
